import Mathlib

/-!
Verification development for the multi-agent research-paper review pipeline.

The embedded program is the coordination core of the repository:
- `src/mcp_server/base_server.py` : the `MCPMessage` envelope factories;
- `src/agents/reader_agent.py`, `critic_agent.py`, `cite_agent.py`,
  `meta_reviewer_agent.py` : each agent's `process_message` dispatch
  (the stage-internal heuristics — PDF parsing, scoring, arXiv search,
  LLM summarisation — are out-of-scope collaborators per the spec and are
  embedded as function parameters that either return a result value or
  raise, i.e. `Except String Val`);
- `src/agents/orchestrator.py` : the `ReviewState` record, the four
  workflow node functions, their sequential composition, and
  `review_paper`.

Python dynamic values are embedded as the inductive type `Val`; Python
expressions that can raise are embedded in `Except String` (the `String`
is the exception description; exact CPython exception texts are
abbreviated since no behaviour depends on them).  Numeric values are
embedded as integers: no claim depends on fractional arithmetic, only on
whether a value is numeric (for `f"{x:.1f}"` formatting).  `uuid.uuid4()`
and `datetime.now()` are external effects; the fresh identifier and
timestamp strings they produce are taken as parameters.
-/

/-- Embedding of a Python runtime value (the subset the coordination core
manipulates): strings, numbers, booleans, `None`, lists, and string-keyed
dicts. -/
inductive Val where
  | str : String → Val
  | int : Int → Val
  | bool : Bool → Val
  | none : Val
  | list : List Val → Val
  | dict : List (String × Val) → Val

/-- Association-list lookup used to embed Python dict access (dict
literals in the embedded code never repeat a key). -/
def dictLookup (kvs : List (String × Val)) (k : String) : Option Val :=
  match kvs with
  | [] => Option.none
  | (k₁, v) :: rest => if k₁ = k then some v else dictLookup rest k

/-- Python `==` between an arbitrary value and a string literal: true
exactly when the value is that string. -/
def pyEqStr (v : Val) (s : String) : Bool :=
  match v with
  | .str t => t = s
  | _ => false

def joinComma : List String → String
  | [] => ""
  | [s] => s
  | s :: rest => s ++ ", " ++ joinComma rest

mutual
/-- Python `repr` of a value (string escaping inside nested values is not
reproduced; no claim depends on the exact text). -/
def pyRepr : Val → String
  | .str s => "\x27" ++ s ++ "\x27"
  | .int n => toString n
  | .bool true => "True"
  | .bool false => "False"
  | .none => "None"
  | .list vs => "[" ++ joinComma (pyReprList vs) ++ "]"
  | .dict kvs => "\x7b" ++ joinComma (pyReprDict kvs) ++ "\x7d"

def pyReprList : List Val → List String
  | [] => []
  | v :: vs => pyRepr v :: pyReprList vs

def pyReprDict : List (String × Val) → List String
  | [] => []
  | (k, v) :: kvs => ("\x27" ++ k ++ "\x27: " ++ pyRepr v) :: pyReprDict kvs
end

/-- Python `str()` of a value, as used by f-string interpolation. -/
def pyStr : Val → String
  | .str s => s
  | v => pyRepr v

/-- Python `m.get(k, default)`: defined on dicts, raises `AttributeError`
on any other receiver (embedding `<obj>.get(...)` on a non-mapping). -/
def Val.get (m : Val) (k : String) (default : Val) : Except String Val :=
  match m with
  | .dict kvs => .ok ((dictLookup kvs k).getD default)
  | _ => .error "AttributeError: object has no attribute get"

/-- Python subscript `m[k]`: `KeyError` when the key is absent,
`TypeError` when the receiver is not a dict. -/
def Val.index (m : Val) (k : String) : Except String Val :=
  match m with
  | .dict kvs =>
    match dictLookup kvs k with
    | some v => .ok v
    | Option.none => .error ("KeyError: " ++ k)
  | _ => .error "TypeError: object is not subscriptable"

/-- Python `len(v)`: defined on lists, dicts and strings. -/
def pyLen : Val → Except String Int
  | .list vs => .ok vs.length
  | .dict kvs => .ok kvs.length
  | .str s => .ok s.length
  | _ => .error "TypeError: object has no len"

/-- Python `f"{x:.1f}"`: succeeds on numeric values (including `bool`,
which is numeric in Python), raises on everything else.  The rendered
text abbreviates decimal formatting. -/
def pyFormatFixed : Val → Except String String
  | .int n => .ok (toString n ++ ".0")
  | .bool b => .ok (if b then "1.0" else "0.0")
  | _ => .error "TypeError: unsupported format string"

def Val.isDict : Val → Bool
  | .dict _ => true
  | _ => false

/-- Python truthiness, for `context or {}` in `MCPMessage.create_request`. -/
def pyTruthy : Val → Bool
  | .str s => !(s = "")
  | .int n => !(n = 0)
  | .bool b => b
  | .none => false
  | .list vs => !vs.isEmpty
  | .dict kvs => !kvs.isEmpty

/-- Python `s[:n]`: the first `n` code points of a string. -/
def pySlice (s : String) (n : Nat) : String :=
  ⟨s.data.take n⟩

/-- MCPMessage.create_request (src/mcp_server/base_server.py lines
135-149).  `message_id` and `timestamp` stand for the fresh
`uuid.uuid4()` / `datetime.now()` stamps. -/
def MCPMessage.create_request (message_id timestamp : String)
    (sender receiver action : String) (data : Val) (context : Val) : Val :=
  Val.dict
    [ ("message_id", Val.str message_id)
    , ("sender", Val.str sender)
    , ("receiver", Val.str receiver)
    , ("timestamp", Val.str timestamp)
    , ("message_type", Val.str "request")
    , ("payload", Val.dict [("action", Val.str action), ("data", data)])
    , ("context", if pyTruthy context then context else Val.dict []) ]

/-- MCPMessage.create_response (base_server.py lines 152-166).  The
`.get` accesses on `original_message` raise when it is not a mapping. -/
def MCPMessage.create_response (message_id timestamp : String)
    (original_message : Val) (sender : String) (data : Val) :
    Except String Val := do
  let receiver ← original_message.get "sender" Val.none
  let payload ← original_message.get "payload" (Val.dict [])
  let action ← payload.get "action" Val.none
  let context ← original_message.get "context" (Val.dict [])
  .ok (Val.dict
    [ ("message_id", Val.str message_id)
    , ("sender", Val.str sender)
    , ("receiver", receiver)
    , ("timestamp", Val.str timestamp)
    , ("message_type", Val.str "response")
    , ("payload", Val.dict [("action", action), ("data", data)])
    , ("context", context) ])

/-- MCPMessage.create_error (base_server.py lines 169-183). -/
def MCPMessage.create_error (message_id timestamp : String)
    (original_message : Val) (sender : String) (error : String) :
    Except String Val := do
  let receiver ← original_message.get "sender" Val.none
  let payload ← original_message.get "payload" (Val.dict [])
  let action ← payload.get "action" Val.none
  let context ← original_message.get "context" (Val.dict [])
  .ok (Val.dict
    [ ("message_id", Val.str message_id)
    , ("sender", Val.str sender)
    , ("receiver", receiver)
    , ("timestamp", Val.str timestamp)
    , ("message_type", Val.str "error")
    , ("payload", Val.dict [("error", Val.str error), ("action", action)])
    , ("context", context) ])

/-- Shared shape of the response envelope each agent's `process_message`
builds on success (reader_agent.py lines 529-540 and the corresponding
lines of the other three agents). -/
def agentResponse (message_id timestamp name : String)
    (receiver : Val) (action : String) (data context : Val) : Val :=
  Val.dict
    [ ("message_id", Val.str message_id)
    , ("sender", Val.str name)
    , ("receiver", receiver)
    , ("timestamp", Val.str timestamp)
    , ("message_type", Val.str "response")
    , ("payload", Val.dict [("action", Val.str action), ("data", data)])
    , ("context", context) ]

/-- Shared shape of the error envelope each agent's `process_message`
builds when its internal logic raises (reader_agent.py lines 542-553 and
the corresponding lines of the other three agents).  `action` is the
request's action value. -/
def agentError (message_id timestamp name : String)
    (receiver : Val) (error : String) (action context : Val) : Val :=
  Val.dict
    [ ("message_id", Val.str message_id)
    , ("sender", Val.str name)
    , ("receiver", receiver)
    , ("timestamp", Val.str timestamp)
    , ("message_type", Val.str "error")
    , ("payload", Val.dict [("error", Val.str error), ("action", action)])
    , ("context", context) ]

/-- Bare error envelope returned on an unrecognised action
(reader_agent.py lines 555-558 and the corresponding lines of the other
three agents): only `message_type` and `payload`, no `context`, no
`action` inside the payload. -/
def unknownActionError (action : Val) : Val :=
  Val.dict
    [ ("message_type", Val.str "error")
    , ("payload", Val.dict [("error", Val.str ("Unknown action: " ++ pyStr action))]) ]

/-- ReaderAgent.process_message (reader_agent.py lines 509-558).
`extract_paper` embeds `self.extract_paper(source, source_type)`, the
out-of-scope PDF/arXiv heuristics: `.error` is a raised exception, which
the `try`/`except` of the source converts into an error envelope. -/
def ReaderAgent.process_message (message_id timestamp : String)
    (extract_paper : Val → Val → Except String Val) (message : Val) :
    Except String Val := do
  let payload ← message.get "payload" (Val.dict [])
  let action ← payload.get "action" Val.none
  let data ← payload.get "data" (Val.dict [])
  if pyEqStr action "extract_paper" then do
    let source ← data.get "source" Val.none
    let source_type ← data.get "source_type" (Val.str "pdf")
    match extract_paper source source_type with
    | .ok paper_content => do
      let receiver ← message.get "sender" Val.none
      let context ← message.get "context" (Val.dict [])
      .ok (agentResponse message_id timestamp "ReaderAgent" receiver
        "extract_paper" paper_content context)
    | .error e => do
      let receiver ← message.get "sender" Val.none
      let context ← message.get "context" (Val.dict [])
      .ok (agentError message_id timestamp "ReaderAgent" receiver e action context)
  else
    .ok (unknownActionError action)

/-- CriticAgent.process_message (critic_agent.py lines 279-320).
`analyze_paper` embeds `self.analyze_paper(paper_content, focus_areas)`. -/
def CriticAgent.process_message (message_id timestamp : String)
    (analyze_paper : Val → Val → Except String Val) (message : Val) :
    Except String Val := do
  let payload ← message.get "payload" (Val.dict [])
  let action ← payload.get "action" Val.none
  let data ← payload.get "data" (Val.dict [])
  if pyEqStr action "analyze_paper" then do
    let paper_content ← data.get "paper_content" (Val.dict [])
    let focus_areas ← data.get "focus_areas" Val.none
    match analyze_paper paper_content focus_areas with
    | .ok analysis => do
      let receiver ← message.get "sender" Val.none
      let context ← message.get "context" (Val.dict [])
      .ok (agentResponse message_id timestamp "CriticAgent" receiver
        "analyze_paper" analysis context)
    | .error e => do
      let receiver ← message.get "sender" Val.none
      let context ← message.get "context" (Val.dict [])
      .ok (agentError message_id timestamp "CriticAgent" receiver e action context)
  else
    .ok (unknownActionError action)

/-- CiteAgent.process_message (cite_agent.py lines 279-320).
`analyze_citations` embeds `self.analyze_citations(paper_content,
max_related)`, the out-of-scope arXiv search heuristics. -/
def CiteAgent.process_message (message_id timestamp : String)
    (analyze_citations : Val → Val → Except String Val) (message : Val) :
    Except String Val := do
  let payload ← message.get "payload" (Val.dict [])
  let action ← payload.get "action" Val.none
  let data ← payload.get "data" (Val.dict [])
  if pyEqStr action "analyze_citations" then do
    let paper_content ← data.get "paper_content" (Val.dict [])
    let max_related ← data.get "max_related" (Val.int 10)
    match analyze_citations paper_content max_related with
    | .ok analysis => do
      let receiver ← message.get "sender" Val.none
      let context ← message.get "context" (Val.dict [])
      .ok (agentResponse message_id timestamp "CiteAgent" receiver
        "analyze_citations" analysis context)
    | .error e => do
      let receiver ← message.get "sender" Val.none
      let context ← message.get "context" (Val.dict [])
      .ok (agentError message_id timestamp "CiteAgent" receiver e action context)
  else
    .ok (unknownActionError action)

/-- MetaReviewerAgent.process_message (meta_reviewer_agent.py lines
275-321).  `generate_review` embeds `self.generate_review(paper_content,
critic_analysis, citation_data)`. -/
def MetaReviewerAgent.process_message (message_id timestamp : String)
    (generate_review : Val → Val → Val → Except String Val) (message : Val) :
    Except String Val := do
  let payload ← message.get "payload" (Val.dict [])
  let action ← payload.get "action" Val.none
  let data ← payload.get "data" (Val.dict [])
  if pyEqStr action "generate_review" then do
    let paper_content ← data.get "paper_content" (Val.dict [])
    let critic_analysis ← data.get "critic_analysis" (Val.dict [])
    let citation_data ← data.get "citation_data" Val.none
    match generate_review paper_content critic_analysis citation_data with
    | .ok review => do
      let receiver ← message.get "sender" Val.none
      let context ← message.get "context" (Val.dict [])
      .ok (agentResponse message_id timestamp "MetaReviewerAgent" receiver
        "generate_review" review context)
    | .error e => do
      let receiver ← message.get "sender" Val.none
      let context ← message.get "context" (Val.dict [])
      .ok (agentError message_id timestamp "MetaReviewerAgent" receiver e action context)
  else
    .ok (unknownActionError action)

/-- The `ReviewState` TypedDict threaded through the workflow
(orchestrator.py lines 18-35). -/
structure ReviewState where
  paper_source : String
  source_type : String
  session_id : String
  paper_content : Val
  critic_analysis : Val
  citation_data : Val
  final_review : Val
  errors : List String
  stage : String
  start_time : String
  tool_calls : Nat

/-- Request envelope built by the `extract` node (orchestrator.py lines
82-98); it reads only the input fields of the state.  `orchUUID` and
`orchNow` stand for the `uuid.uuid4()` / `datetime.now()` stamps, whose
values nothing depends on. -/
def orchUUID : String := "00000000-0000-0000-0000-000000000000"

def orchNow : String := "1970-01-01T00:00:00"

def mkOrchRequest (receiver action : String) (data : Val) (session_id : String) : Val :=
  Val.dict
    [ ("message_id", Val.str orchUUID)
    , ("sender", Val.str "orchestrator")
    , ("receiver", Val.str receiver)
    , ("timestamp", Val.str orchNow)
    , ("message_type", Val.str "request")
    , ("payload", Val.dict [("action", Val.str action), ("data", data)])
    , ("context", Val.dict [("session_id", Val.str session_id)]) ]

def extractRequest (paper_source source_type session_id : String) : Val :=
  mkOrchRequest "ReaderAgent" "extract_paper"
    (Val.dict [("source", Val.str paper_source), ("source_type", Val.str source_type)])
    session_id

/-- Request envelope built by the `analyze` node (orchestrator.py lines
125-140). -/
def analyzeRequest (session_id : String) (paper_content : Val) : Val :=
  mkOrchRequest "CriticAgent" "analyze_paper"
    (Val.dict [("paper_content", paper_content)]) session_id

/-- Request envelope built by the `find_citations` node (orchestrator.py
lines 168-184). -/
def citeRequest (session_id : String) (paper_content : Val) : Val :=
  mkOrchRequest "CiteAgent" "analyze_citations"
    (Val.dict [("paper_content", paper_content), ("max_related", Val.int 10)])
    session_id

/-- Request envelope built by the `generate_review` node (orchestrator.py
lines 214-230). -/
def metaRequest (session_id : String)
    (paper_content critic_analysis citation_data : Val) : Val :=
  mkOrchRequest "MetaReviewerAgent" "generate_review"
    (Val.dict [ ("paper_content", paper_content)
              , ("critic_analysis", critic_analysis)
              , ("citation_data", citation_data) ])
    session_id

/-- Lifts a Python expression into a node's `try` body, recording the
state in force should it raise: a `try` block's mutations made before the
raise survive into the `except` handler. -/
def att (s : ReviewState) (x : Except String α) : Except (String × ReviewState) α :=
  match x with
  | .ok a => .ok a
  | .error e => .error (e, s)

/-- The `except Exception as e` handler shared by the node functions:
append `tag + str(e)` to `errors` on the state current at the raise. -/
def catchWith (tag : String) (body : Except (String × ReviewState) ReviewState) :
    ReviewState :=
  match body with
  | .ok s => s
  | .error (e, s) => { s with errors := s.errors ++ [tag ++ e] }

/-- The `extract` node, `ResearchReviewOrchestrator.extract_paper`
(orchestrator.py lines 74-115).  The agent is abstracted as the function
`reader` from the request envelope to the returned envelope
(`ReaderAgent.process_message` composed with its internal logic); a
`.error` result is a raised exception caught by the node's `except`.
The success branch's `print` re-reads `state["paper_content"].get("title",
"Unknown")` and so can itself raise inside the `try`. -/
def Orchestrator.extract_paper (reader : Val → Except String Val)
    (state : ReviewState) : ReviewState :=
  let state := { state with stage := "extraction", tool_calls := state.tool_calls + 1 }
  catchWith "Extraction failed: " (do
    let response ← att state
      (reader (extractRequest state.paper_source state.source_type state.session_id))
    let mt ← att state (response.index "message_type")
    if pyEqStr mt "response" then do
      let payload ← att state (response.index "payload")
      let d ← att state (payload.index "data")
      let state := { state with paper_content := d }
      let _ ← att state (d.get "title" (Val.str "Unknown"))
      .ok state
    else do
      let payload ← att state (response.index "payload")
      let ev ← att state (payload.get "error" Val.none)
      .ok { state with errors := state.errors ++ ["Reader Agent error: " ++ pyStr ev] })

/-- The `analyze` node, `ResearchReviewOrchestrator.analyze_paper`
(orchestrator.py lines 117-158).  The success branch's `print` formats
`state["critic_analysis"].get("overall_score", 0)` with `:.1f`, which
raises on a non-numeric score. -/
def Orchestrator.analyze_paper (critic : Val → Except String Val)
    (state : ReviewState) : ReviewState :=
  let state := { state with stage := "analysis", tool_calls := state.tool_calls + 1 }
  catchWith "Analysis failed: " (do
    let response ← att state (critic (analyzeRequest state.session_id state.paper_content))
    let mt ← att state (response.index "message_type")
    if pyEqStr mt "response" then do
      let payload ← att state (response.index "payload")
      let d ← att state (payload.index "data")
      let state := { state with critic_analysis := d }
      let overall ← att state (d.get "overall_score" (Val.int 0))
      let _ ← att state (pyFormatFixed overall)
      .ok state
    else do
      let payload ← att state (response.index "payload")
      let ev ← att state (payload.get "error" Val.none)
      .ok { state with errors := state.errors ++ ["Critic Agent error: " ++ pyStr ev] })

/-- The `find_citations` node, `ResearchReviewOrchestrator.find_citations`
(orchestrator.py lines 160-204).  Both the error-envelope branch and the
`except` handler substitute the empty dict for `citation_data`.  The
success branch's `print` computes
`len(state["citation_data"].get("related_papers", []))` inside the `try`. -/
def Orchestrator.find_citations (cite : Val → Except String Val)
    (state : ReviewState) : ReviewState :=
  let state := { state with stage := "citation_analysis", tool_calls := state.tool_calls + 1 }
  match (do
    let response ← att state (cite (citeRequest state.session_id state.paper_content))
    let mt ← att state (response.index "message_type")
    if pyEqStr mt "response" then do
      let payload ← att state (response.index "payload")
      let d ← att state (payload.index "data")
      let state := { state with citation_data := d }
      let rp ← att state (d.get "related_papers" (Val.list []))
      let _ ← att state (pyLen rp)
      .ok state
    else do
      let payload ← att state (response.index "payload")
      let ev ← att state (payload.get "error" Val.none)
      .ok { state with errors := state.errors ++ ["CiteAgent error: " ++ pyStr ev]
                     , citation_data := Val.dict [] } :
      Except (String × ReviewState) ReviewState) with
  | .ok s => s
  | .error (e, s) =>
    { s with errors := s.errors ++ ["Citation analysis failed: " ++ e]
           , citation_data := Val.dict [] }

/-- The `generate_review` node,
`ResearchReviewOrchestrator.generate_review` (orchestrator.py lines
206-248). -/
def Orchestrator.generate_review (meta : Val → Except String Val)
    (state : ReviewState) : ReviewState :=
  let state := { state with stage := "review_generation", tool_calls := state.tool_calls + 1 }
  catchWith "Review generation failed: " (do
    let response ← att state
      (meta (metaRequest state.session_id state.paper_content
        state.critic_analysis state.citation_data))
    let mt ← att state (response.index "message_type")
    if pyEqStr mt "response" then do
      let payload ← att state (response.index "payload")
      let d ← att state (payload.index "data")
      .ok { state with final_review := d }
    else do
      let payload ← att state (response.index "payload")
      let ev ← att state (payload.get "error" Val.none)
      .ok { state with errors := state.errors ++ ["MetaReviewer error: " ++ pyStr ev] })

/-- The LangGraph channel update applied after a node returns the full
state.  `errors` is declared `Annotated[list, operator.add]`
(orchestrator.py line 32), so the returned `errors` value is
concatenated onto the channel\x27s current value; every other field is a
plain last-value channel and takes the returned value. -/
def applyReducers (pre post : ReviewState) : ReviewState :=
  { post with errors := pre.errors ++ post.errors }

/-- One LangGraph node invocation: the node function receives the
current channel state and returns the (mutated) full state, which the
framework folds back into the channels with `applyReducers`.  Because
each node returns the whole state — including the `errors` list it
received — the `operator.add` reducer re-appends the already-accumulated
list, duplicating earlier entries. -/
def invokeNode (node : ReviewState → ReviewState) (s : ReviewState) : ReviewState :=
  applyReducers s (node s)

/-- The workflow graph of `_build_workflow` (orchestrator.py lines
55-72): the strict sequence extract → analyze → find_citations →
generate_review, each node invocation folded back into the channels by
the `operator.add` reducer on `errors` (see `invokeNode`).  Writing the
initial input state into the empty channels is the identity (the list
channel starts empty, and `[] ++ errors = errors`), so the compiled run
is this chain. -/
def runPipeline (reader critic cite meta : Val → Except String Val)
    (s : ReviewState) : ReviewState :=
  invokeNode (Orchestrator.generate_review meta)
    (invokeNode (Orchestrator.find_citations cite)
      (invokeNode (Orchestrator.analyze_paper critic)
        (invokeNode (Orchestrator.extract_paper reader) s)))

/-- The initial state built by `review_paper` (orchestrator.py lines
270-282). -/
def initialState (paper_source source_type session_id start_time : String) :
    ReviewState :=
  { paper_source := paper_source
  , source_type := source_type
  , session_id := session_id
  , paper_content := Val.dict []
  , critic_analysis := Val.dict []
  , citation_data := Val.dict []
  , final_review := Val.dict []
  , errors := []
  , stage := "initialized"
  , start_time := start_time
  , tool_calls := 0 }

/-- `ResearchReviewOrchestrator.review_paper` (orchestrator.py lines
250-325).  `invoke` embeds `self.app.invoke(initial_state, config)`: the
LangGraph-compiled workflow, whose machinery can itself raise a
coordinator-level exception (the node functions never do).  `session_id`,
`start_iso`/`end_iso` and `elapsed` stand for the `uuid.uuid4()` and
`datetime.now()` values.  On success the result carries the stage outputs
and a `metadata` block with `tool_calls` and `errors`; in the `except`
branch (lines 316-325) it carries a top-level `error` string and a
`metadata` block with only `processing_time_seconds` and `failed`. -/
def review_paper (invoke : ReviewState → Except String ReviewState)
    (session_id start_iso end_iso : String) (elapsed : Val)
    (paper_source : String) (source_type : String) : Val :=
  let s₀ := initialState paper_source source_type session_id start_iso
  match invoke s₀ with
  | .ok final_state =>
    Val.dict
      [ ("session_id", Val.str session_id)
      , ("paper_content", final_state.paper_content)
      , ("critic_analysis", final_state.critic_analysis)
      , ("citation_data", final_state.citation_data)
      , ("final_review", final_state.final_review)
      , ("metadata", Val.dict
          [ ("processing_time_seconds", elapsed)
          , ("tool_calls", Val.int final_state.tool_calls)
          , ("errors", Val.list (final_state.errors.map Val.str))
          , ("start_time", Val.str start_iso)
          , ("end_time", Val.str end_iso) ]) ]
  | .error e =>
    Val.dict
      [ ("session_id", Val.str session_id)
      , ("error", Val.str e)
      , ("metadata", Val.dict
          [ ("processing_time_seconds", elapsed)
          , ("failed", Val.bool true) ]) ]

/-- The default workflow invocation: LangGraph drives the four nodes in
sequence under the `errors` reducer semantics of `runPipeline` and its
own machinery raises nothing. -/
def defaultInvoke (reader critic cite meta : Val → Except String Val) :
    ReviewState → Except String ReviewState :=
  fun s => .ok (runPipeline reader critic cite meta s)

/-- Modelled from the spec: the Checkpoint Store.  The orchestrator
instantiates `MemorySaver()` from LangGraph (orchestrator.py lines 52-53)
and compiles the workflow with it as checkpointer; the store itself is
library code absent from the repository, so it is modelled from the
spec's contract: "`save(run_id, state)` overwrites any prior snapshot for
that id; `load(run_id) → state | not-found`".  Snapshots are keyed by the
run identifier in an association list. -/
def CheckpointStore : Type := List (String × ReviewState)

/-- Modelled from the spec: `save(run_id, state)` overwrites any prior
snapshot stored under `run_id`. -/
def CheckpointStore.save (store : CheckpointStore) (run_id : String)
    (state : ReviewState) : CheckpointStore :=
  (run_id, state) :: store.filter (fun kv => kv.1 ≠ run_id)

/-- Modelled from the spec: `load(run_id)` returns the snapshot stored
under `run_id`, or not-found. -/
def CheckpointStore.load (store : CheckpointStore) (run_id : String) :
    Option ReviewState :=
  match store with
  | [] => Option.none
  | (k, s) :: rest => if k = run_id then some s else CheckpointStore.load rest run_id

/-- One extracted section (the dict literal of reader_agent.py lines
456-460). -/
structure PaperSection where
  heading : String
  level : Int
  content : String

/-- ReaderAgent._determine_section_level (reader_agent.py lines 480-489).
`matchNum` and `matchNumDot` embed the two stdlib regex tests
matching a leading "digits blank" and "digits dot digits blank". -/
def ReaderAgent.determine_section_level
    (matchNum matchNumDot : String → Bool) (heading : String) : Int :=
  if matchNum heading then 1
  else if matchNumDot heading then 2
  else if heading.data.any Char.isAlpha ∧
          heading.data.all (fun c => !c.isAlpha || c.isUpper) then 1
  else 2

/-- ReaderAgent._extract_authors (reader_agent.py lines 416-431).
`matchName` embeds the `re.match` test for an author-name line and
`splitAuthors` the `re.split` on commas and "and"; both are stdlib regex
machinery outside the coordination core.  The accumulated list is cut to
the first 10 entries on return. -/
def ReaderAgent.extract_authors (matchName : String → Bool)
    (splitAuthors : String → List String) (text : String) : List String :=
  (((text.splitOn "\n").take 20).foldl (fun authors line =>
    let line := line.trim
    if matchName line then
      authors ++ ((splitAuthors line).map String.trim).filter (fun a => a ≠ "")
    else authors) []).take 10

/-- ReaderAgent._extract_sections (reader_agent.py lines 433-462).  For
each of the three section-heading patterns, `finditer` embeds the regex
enumeration of matches as pairs of the captured heading and the raw text
slice running to the next match; each appended section truncates its
stripped content to 1000 characters, and the collected list is cut to 15
entries on return. -/
def ReaderAgent.extract_sections (finditer : String → String → List (String × String))
    (matchNum matchNumDot : String → Bool) (text : String) : List PaperSection :=
  let section_patterns : List String :=
    [ "\\n(\\d+\\.?\\s+[A-Z][a-zA-Z\\s]+)\\n"
    , "\\n([A-Z][A-Z\\s]+)\\n"
    , "\\n([A-Z][a-zA-Z\\s]+)\\n(?=[A-Z])" ]
  (section_patterns.flatMap (fun pattern =>
    (finditer pattern text).map (fun m =>
      let heading := m.1.trim
      { heading := heading
      , level := ReaderAgent.determine_section_level matchNum matchNumDot heading
      , content := pySlice m.2.trim 1000 }))).take 15

/-- ReaderAgent._extract_references (reader_agent.py lines 464-478).
`search` embeds the regex search for the references section (returning
the captured group when found) and `splitRefs` the split on reference
markers.  Entries keep only stripped lines longer than 20 characters and
the list is cut to 50 on return. -/
def ReaderAgent.extract_references (search : String → Option String)
    (splitRefs : String → List String) (text : String) : List String :=
  match search text with
  | some ref_text =>
    (((splitRefs ref_text).map String.trim).filter (fun r => 20 < r.length)).take 50
  | Option.none => []

/-- An agent returns a response envelope carrying result data `d`: the
returned value has `message_type` equal to `"response"` and
`payload["data"]` equal to `d` (the shape the orchestrator's response
branch consumes). -/
def RespondsWith (agent : Val → Except String Val) (req d : Val) : Prop :=
  ∃ rv pl, agent req = .ok rv ∧ rv.index "message_type" = .ok (Val.str "response")
    ∧ rv.index "payload" = .ok pl ∧ pl.index "data" = .ok d

/-- An agent returns an error envelope whose `payload.get("error")` is
`ev`: `message_type` is present but not `"response"` (the shape the
orchestrator's error branch consumes). -/
def FailsWith (agent : Val → Except String Val) (req ev : Val) : Prop :=
  ∃ rv mt pl, agent req = .ok rv ∧ rv.index "message_type" = .ok mt
    ∧ pyEqStr mt "response" = false
    ∧ rv.index "payload" = .ok pl ∧ pl.get "error" Val.none = .ok ev

/-- Concrete adapter fixture returning a well-formed response envelope
with result payload `d`, for exercising the theorems at concrete
inputs. -/
def respondAgent (d : Val) : Val → Except String Val :=
  fun _ => Except.ok (Val.dict
    [("message_type", Val.str "response"), ("payload", Val.dict [("data", d)])])

/-- Concrete adapter fixture returning a well-formed error envelope with
error value `ev`. -/
def errorAgent (ev : Val) : Val → Except String Val :=
  fun _ => Except.ok (Val.dict
    [("message_type", Val.str "error"), ("payload", Val.dict [("error", ev)])])

/-- Concrete adapter fixture raising an exception with description `e`. -/
def raiseAgent (e : String) : Val → Except String Val :=
  fun _ => Except.error e

/-- Concrete stage-internal logic fixture that returns the empty dict. -/
def okLogic : Val → Val → Except String Val :=
  fun _ _ => Except.ok (Val.dict [])

/-- A well-formed request envelope whose action matches no adapter. -/
def unknownActionMsg : Val :=
  Val.dict
    [ ("message_id", Val.str "m1")
    , ("sender", Val.str "orchestrator")
    , ("message_type", Val.str "request")
    , ("payload", Val.dict [("action", Val.str "bogus"), ("data", Val.dict [])])
    , ("context", Val.dict [("session_id", Val.str "s1")]) ]

/-- An envelope whose `message_type` is `"response"` (not a request) but
whose action matches the reader adapter's declared action. -/
def wrongTypeMsg : Val :=
  Val.dict
    [ ("message_id", Val.str "m2")
    , ("sender", Val.str "orchestrator")
    , ("message_type", Val.str "response")
    , ("payload", Val.dict [("action", Val.str "extract_paper"), ("data", Val.dict [])])
    , ("context", Val.dict [("session_id", Val.str "s1")]) ]

/-- A malformed envelope whose `payload` is not a mapping. -/
def badPayloadMsg : Val :=
  Val.dict [("payload", Val.str "oops")]

/-- The workflow invocation in which the LangGraph machinery itself
raises a coordinator-level exception. -/
def failingInvoke : ReviewState → Except String ReviewState :=
  fun _ => Except.error "boom"

theorem extract_paper_shape (reader : Val → Except String Val) (s : ReviewState) :
    ∃ t, (Orchestrator.extract_paper reader s).errors = s.errors ++ t
      ∧ (Orchestrator.extract_paper reader s).tool_calls = s.tool_calls + 1 := by
  unfold Orchestrator.extract_paper
  simp only [bind, Except.bind, att, catchWith]
  rcases h1 : reader (extractRequest s.paper_source s.source_type s.session_id) with e | rv
  case _ => exact ⟨_, rfl, rfl⟩
  simp only [h1]
  rcases h2 : rv.index "message_type" with e | mt
  case _ => exact ⟨_, rfl, rfl⟩
  simp only [h2]
  by_cases hmt : pyEqStr mt "response" = true
  · simp only [if_pos hmt]
    rcases h3 : rv.index "payload" with e | pl
    case _ => exact ⟨_, rfl, rfl⟩
    simp only [h3]
    rcases h4 : pl.index "data" with e | d
    case _ => exact ⟨_, rfl, rfl⟩
    simp only [h4]
    rcases h5 : d.get "title" (Val.str "Unknown") with e | t
    case _ => exact ⟨_, rfl, rfl⟩
    simp only [h5]
    exact ⟨[], by simp, by trivial⟩
  · simp only [if_neg hmt]
    rcases h3 : rv.index "payload" with e | pl
    case _ => exact ⟨_, rfl, rfl⟩
    simp only [h3]
    rcases h4 : pl.get "error" Val.none with e | ev
    case _ => exact ⟨_, rfl, rfl⟩
    simp only [h4]
    exact ⟨_, rfl, by trivial⟩

theorem analyze_paper_shape (critic : Val → Except String Val) (s : ReviewState) :
    ∃ t, (Orchestrator.analyze_paper critic s).errors = s.errors ++ t
      ∧ (Orchestrator.analyze_paper critic s).tool_calls = s.tool_calls + 1 := by
  unfold Orchestrator.analyze_paper
  simp only [bind, Except.bind, att, catchWith]
  rcases h1 : critic (analyzeRequest s.session_id s.paper_content) with e | rv
  case _ => exact ⟨_, rfl, rfl⟩
  simp only [h1]
  rcases h2 : rv.index "message_type" with e | mt
  case _ => exact ⟨_, rfl, rfl⟩
  simp only [h2]
  by_cases hmt : pyEqStr mt "response" = true
  · simp only [if_pos hmt]
    rcases h3 : rv.index "payload" with e | pl
    case _ => exact ⟨_, rfl, rfl⟩
    simp only [h3]
    rcases h4 : pl.index "data" with e | d
    case _ => exact ⟨_, rfl, rfl⟩
    simp only [h4]
    rcases h5 : d.get "overall_score" (Val.int 0) with e | o
    case _ => exact ⟨_, rfl, rfl⟩
    simp only [h5]
    rcases h6 : pyFormatFixed o with e | f
    case _ => exact ⟨_, rfl, rfl⟩
    simp only [h6]
    exact ⟨[], by simp, by trivial⟩
  · simp only [if_neg hmt]
    rcases h3 : rv.index "payload" with e | pl
    case _ => exact ⟨_, rfl, rfl⟩
    simp only [h3]
    rcases h4 : pl.get "error" Val.none with e | ev
    case _ => exact ⟨_, rfl, rfl⟩
    simp only [h4]
    exact ⟨_, rfl, by trivial⟩

theorem find_citations_shape (cite : Val → Except String Val) (s : ReviewState) :
    ∃ t, (Orchestrator.find_citations cite s).errors = s.errors ++ t
      ∧ (Orchestrator.find_citations cite s).tool_calls = s.tool_calls + 1 := by
  unfold Orchestrator.find_citations
  simp only [bind, Except.bind, att]
  rcases h1 : cite (citeRequest s.session_id s.paper_content) with e | rv
  case _ => exact ⟨_, rfl, rfl⟩
  simp only [h1]
  rcases h2 : rv.index "message_type" with e | mt
  case _ => exact ⟨_, rfl, rfl⟩
  simp only [h2]
  by_cases hmt : pyEqStr mt "response" = true
  · simp only [if_pos hmt]
    rcases h3 : rv.index "payload" with e | pl
    case _ => exact ⟨_, rfl, rfl⟩
    simp only [h3]
    rcases h4 : pl.index "data" with e | d
    case _ => exact ⟨_, rfl, rfl⟩
    simp only [h4]
    rcases h5 : d.get "related_papers" (Val.list []) with e | rp
    case _ => exact ⟨_, rfl, rfl⟩
    simp only [h5]
    rcases h6 : pyLen rp with e | n
    case _ => exact ⟨_, rfl, rfl⟩
    simp only [h6]
    exact ⟨[], by simp, by trivial⟩
  · simp only [if_neg hmt]
    rcases h3 : rv.index "payload" with e | pl
    case _ => exact ⟨_, rfl, rfl⟩
    simp only [h3]
    rcases h4 : pl.get "error" Val.none with e | ev
    case _ => exact ⟨_, rfl, rfl⟩
    simp only [h4]
    exact ⟨_, rfl, by trivial⟩

theorem generate_review_shape (meta : Val → Except String Val) (s : ReviewState) :
    ∃ t, (Orchestrator.generate_review meta s).errors = s.errors ++ t
      ∧ (Orchestrator.generate_review meta s).tool_calls = s.tool_calls + 1 := by
  unfold Orchestrator.generate_review
  simp only [bind, Except.bind, att, catchWith]
  rcases h1 : meta (metaRequest s.session_id s.paper_content s.critic_analysis
    s.citation_data) with e | rv
  case _ => exact ⟨_, rfl, rfl⟩
  simp only [h1]
  rcases h2 : rv.index "message_type" with e | mt
  case _ => exact ⟨_, rfl, rfl⟩
  simp only [h2]
  by_cases hmt : pyEqStr mt "response" = true
  · simp only [if_pos hmt]
    rcases h3 : rv.index "payload" with e | pl
    case _ => exact ⟨_, rfl, rfl⟩
    simp only [h3]
    rcases h4 : pl.index "data" with e | d
    case _ => exact ⟨_, rfl, rfl⟩
    simp only [h4]
    exact ⟨[], by simp, by trivial⟩
  · simp only [if_neg hmt]
    rcases h3 : rv.index "payload" with e | pl
    case _ => exact ⟨_, rfl, rfl⟩
    simp only [h3]
    rcases h4 : pl.get "error" Val.none with e | ev
    case _ => exact ⟨_, rfl, rfl⟩
    simp only [h4]
    exact ⟨_, rfl, by trivial⟩

theorem extract_paper_responds (reader : Val → Except String Val) (s : ReviewState)
    (kvs : List (String × Val))
    (h : RespondsWith reader (extractRequest s.paper_source s.source_type s.session_id)
      (Val.dict kvs)) :
    Orchestrator.extract_paper reader s =
      { s with stage := "extraction", tool_calls := s.tool_calls + 1,
               paper_content := Val.dict kvs } := by
  obtain ⟨rv, pl, h1, h2, h3, h4⟩ := h
  unfold Orchestrator.extract_paper
  simp only [bind, Except.bind, att, catchWith, h1, h2, h3, h4, pyEqStr, Val.get]
  simp

theorem extract_paper_fails (reader : Val → Except String Val) (s : ReviewState) (ev : Val)
    (h : FailsWith reader (extractRequest s.paper_source s.source_type s.session_id) ev) :
    Orchestrator.extract_paper reader s =
      { s with stage := "extraction", tool_calls := s.tool_calls + 1,
               errors := s.errors ++ ["Reader Agent error: " ++ pyStr ev] } := by
  obtain ⟨rv, mt, pl, h1, h2, hmt, h3, h4⟩ := h
  unfold Orchestrator.extract_paper
  simp only [bind, Except.bind, att, catchWith, h1, h2, h3, h4, hmt]
  simp

theorem extract_paper_raises (reader : Val → Except String Val) (s : ReviewState) (e : String)
    (h : reader (extractRequest s.paper_source s.source_type s.session_id) = .error e) :
    Orchestrator.extract_paper reader s =
      { s with stage := "extraction", tool_calls := s.tool_calls + 1,
               errors := s.errors ++ ["Extraction failed: " ++ e] } := by
  unfold Orchestrator.extract_paper
  simp only [bind, Except.bind, att, catchWith, h]

theorem analyze_paper_responds (critic : Val → Except String Val) (s : ReviewState)
    (kvs : List (String × Val)) (f : String)
    (h : RespondsWith critic (analyzeRequest s.session_id s.paper_content) (Val.dict kvs))
    (hfmt : pyFormatFixed ((dictLookup kvs "overall_score").getD (Val.int 0)) = .ok f) :
    Orchestrator.analyze_paper critic s =
      { s with stage := "analysis", tool_calls := s.tool_calls + 1,
               critic_analysis := Val.dict kvs } := by
  obtain ⟨rv, pl, h1, h2, h3, h4⟩ := h
  unfold Orchestrator.analyze_paper
  simp only [bind, Except.bind, att, catchWith, h1, h2, h3, h4, pyEqStr, Val.get, hfmt]
  simp

theorem analyze_paper_fails (critic : Val → Except String Val) (s : ReviewState) (ev : Val)
    (h : FailsWith critic (analyzeRequest s.session_id s.paper_content) ev) :
    Orchestrator.analyze_paper critic s =
      { s with stage := "analysis", tool_calls := s.tool_calls + 1,
               errors := s.errors ++ ["Critic Agent error: " ++ pyStr ev] } := by
  obtain ⟨rv, mt, pl, h1, h2, hmt, h3, h4⟩ := h
  unfold Orchestrator.analyze_paper
  simp only [bind, Except.bind, att, catchWith, h1, h2, h3, h4, hmt]
  simp

theorem analyze_paper_raises (critic : Val → Except String Val) (s : ReviewState) (e : String)
    (h : critic (analyzeRequest s.session_id s.paper_content) = .error e) :
    Orchestrator.analyze_paper critic s =
      { s with stage := "analysis", tool_calls := s.tool_calls + 1,
               errors := s.errors ++ ["Analysis failed: " ++ e] } := by
  unfold Orchestrator.analyze_paper
  simp only [bind, Except.bind, att, catchWith, h]

theorem find_citations_responds (cite : Val → Except String Val) (s : ReviewState)
    (kvs : List (String × Val)) (n : Int)
    (h : RespondsWith cite (citeRequest s.session_id s.paper_content) (Val.dict kvs))
    (hlen : pyLen ((dictLookup kvs "related_papers").getD (Val.list [])) = .ok n) :
    Orchestrator.find_citations cite s =
      { s with stage := "citation_analysis", tool_calls := s.tool_calls + 1,
               citation_data := Val.dict kvs } := by
  obtain ⟨rv, pl, h1, h2, h3, h4⟩ := h
  unfold Orchestrator.find_citations
  simp only [bind, Except.bind, att, h1, h2, h3, h4, pyEqStr, Val.get, hlen]
  simp

theorem find_citations_fails (cite : Val → Except String Val) (s : ReviewState) (ev : Val)
    (h : FailsWith cite (citeRequest s.session_id s.paper_content) ev) :
    Orchestrator.find_citations cite s =
      { s with stage := "citation_analysis", tool_calls := s.tool_calls + 1,
               errors := s.errors ++ ["CiteAgent error: " ++ pyStr ev],
               citation_data := Val.dict [] } := by
  obtain ⟨rv, mt, pl, h1, h2, hmt, h3, h4⟩ := h
  unfold Orchestrator.find_citations
  simp only [bind, Except.bind, att, h1, h2, h3, h4, hmt]
  simp

theorem find_citations_raises (cite : Val → Except String Val) (s : ReviewState) (e : String)
    (h : cite (citeRequest s.session_id s.paper_content) = .error e) :
    Orchestrator.find_citations cite s =
      { s with stage := "citation_analysis", tool_calls := s.tool_calls + 1,
               errors := s.errors ++ ["Citation analysis failed: " ++ e],
               citation_data := Val.dict [] } := by
  unfold Orchestrator.find_citations
  simp only [bind, Except.bind, att, h]

theorem generate_review_responds (meta : Val → Except String Val) (s : ReviewState) (d : Val)
    (h : RespondsWith meta (metaRequest s.session_id s.paper_content s.critic_analysis
      s.citation_data) d) :
    Orchestrator.generate_review meta s =
      { s with stage := "review_generation", tool_calls := s.tool_calls + 1,
               final_review := d } := by
  obtain ⟨rv, pl, h1, h2, h3, h4⟩ := h
  unfold Orchestrator.generate_review
  simp only [bind, Except.bind, att, catchWith, h1, h2, h3, h4, pyEqStr]
  simp

theorem generate_review_fails (meta : Val → Except String Val) (s : ReviewState) (ev : Val)
    (h : FailsWith meta (metaRequest s.session_id s.paper_content s.critic_analysis
      s.citation_data) ev) :
    Orchestrator.generate_review meta s =
      { s with stage := "review_generation", tool_calls := s.tool_calls + 1,
               errors := s.errors ++ ["MetaReviewer error: " ++ pyStr ev] } := by
  obtain ⟨rv, mt, pl, h1, h2, hmt, h3, h4⟩ := h
  unfold Orchestrator.generate_review
  simp only [bind, Except.bind, att, catchWith, h1, h2, h3, h4, hmt]
  simp

theorem generate_review_raises (meta : Val → Except String Val) (s : ReviewState) (e : String)
    (h : meta (metaRequest s.session_id s.paper_content s.critic_analysis
      s.citation_data) = .error e) :
    Orchestrator.generate_review meta s =
      { s with stage := "review_generation", tool_calls := s.tool_calls + 1,
               errors := s.errors ++ ["Review generation failed: " ++ e] } := by
  unfold Orchestrator.generate_review
  simp only [bind, Except.bind, att, catchWith, h]

theorem analyze_paper_errors_congr (critic : Val → Except String Val)
    (s : ReviewState) (E : List String) :
    ∃ F, Orchestrator.analyze_paper critic { s with errors := E }
      = { Orchestrator.analyze_paper critic s with errors := F } := by
  unfold Orchestrator.analyze_paper
  simp only [bind, Except.bind, att, catchWith]
  rcases h1 : critic (analyzeRequest s.session_id s.paper_content) with e | rv
  case _ => exact ⟨_, rfl⟩
  simp only [h1]
  rcases h2 : rv.index "message_type" with e | mt
  case _ => exact ⟨_, rfl⟩
  simp only [h2]
  by_cases hmt : pyEqStr mt "response" = true
  · simp only [if_pos hmt]
    rcases h3 : rv.index "payload" with e | pl
    case _ => exact ⟨_, rfl⟩
    simp only [h3]
    rcases h4 : pl.index "data" with e | d
    case _ => exact ⟨_, rfl⟩
    simp only [h4]
    rcases h5 : d.get "overall_score" (Val.int 0) with e | o
    case _ => exact ⟨_, rfl⟩
    simp only [h5]
    rcases h6 : pyFormatFixed o with e | f
    case _ => exact ⟨_, rfl⟩
    simp only [h6]
    exact ⟨_, rfl⟩
  · simp only [if_neg hmt]
    rcases h3 : rv.index "payload" with e | pl
    case _ => exact ⟨_, rfl⟩
    simp only [h3]
    rcases h4 : pl.get "error" Val.none with e | ev
    case _ => exact ⟨_, rfl⟩
    simp only [h4]
    exact ⟨_, rfl⟩

theorem find_citations_errors_congr (cite : Val → Except String Val)
    (s : ReviewState) (E : List String) :
    ∃ F, Orchestrator.find_citations cite { s with errors := E }
      = { Orchestrator.find_citations cite s with errors := F } := by
  unfold Orchestrator.find_citations
  simp only [bind, Except.bind, att]
  rcases h1 : cite (citeRequest s.session_id s.paper_content) with e | rv
  case _ => exact ⟨_, rfl⟩
  simp only [h1]
  rcases h2 : rv.index "message_type" with e | mt
  case _ => exact ⟨_, rfl⟩
  simp only [h2]
  by_cases hmt : pyEqStr mt "response" = true
  · simp only [if_pos hmt]
    rcases h3 : rv.index "payload" with e | pl
    case _ => exact ⟨_, rfl⟩
    simp only [h3]
    rcases h4 : pl.index "data" with e | d
    case _ => exact ⟨_, rfl⟩
    simp only [h4]
    rcases h5 : d.get "related_papers" (Val.list []) with e | rp
    case _ => exact ⟨_, rfl⟩
    simp only [h5]
    rcases h6 : pyLen rp with e | n
    case _ => exact ⟨_, rfl⟩
    simp only [h6]
    exact ⟨_, rfl⟩
  · simp only [if_neg hmt]
    rcases h3 : rv.index "payload" with e | pl
    case _ => exact ⟨_, rfl⟩
    simp only [h3]
    rcases h4 : pl.get "error" Val.none with e | ev
    case _ => exact ⟨_, rfl⟩
    simp only [h4]
    exact ⟨_, rfl⟩

theorem invokeNode_errors (node : ReviewState → ReviewState) (s : ReviewState) :
    (invokeNode node s).errors = s.errors ++ (node s).errors := rfl

theorem invokeNode_tool_calls (node : ReviewState → ReviewState) (s : ReviewState) :
    (invokeNode node s).tool_calls = (node s).tool_calls := rfl

theorem invokeNode_errors_prefix (node : ReviewState → ReviewState)
    (s base : ReviewState) (t : List String) (h : s.errors = base.errors ++ t) :
    ∃ u, (invokeNode node s).errors = base.errors ++ u := by
  exact ⟨t ++ (node s).errors, by simp [invokeNode_errors, h, List.append_assoc]⟩

theorem runPipeline_shape (reader critic cite meta : Val → Except String Val)
    (s : ReviewState) :
    ∃ t, (runPipeline reader critic cite meta s).errors = s.errors ++ t
      ∧ (runPipeline reader critic cite meta s).tool_calls = s.tool_calls + 4 := by
  obtain ⟨u₁, hu₁⟩ := invokeNode_errors_prefix (Orchestrator.extract_paper reader) s s []
    (by simp)
  obtain ⟨u₂, hu₂⟩ := invokeNode_errors_prefix (Orchestrator.analyze_paper critic) _ s u₁ hu₁
  obtain ⟨u₃, hu₃⟩ := invokeNode_errors_prefix (Orchestrator.find_citations cite) _ s u₂ hu₂
  obtain ⟨u₄, hu₄⟩ := invokeNode_errors_prefix (Orchestrator.generate_review meta) _ s u₃ hu₃
  refine ⟨u₄, hu₄, ?_⟩
  obtain ⟨_, _, ht₁⟩ := extract_paper_shape reader s
  obtain ⟨_, _, ht₂⟩ :=
    analyze_paper_shape critic (invokeNode (Orchestrator.extract_paper reader) s)
  obtain ⟨_, _, ht₃⟩ :=
    find_citations_shape cite
      (invokeNode (Orchestrator.analyze_paper critic)
        (invokeNode (Orchestrator.extract_paper reader) s))
  obtain ⟨_, _, ht₄⟩ :=
    generate_review_shape meta
      (invokeNode (Orchestrator.find_citations cite)
        (invokeNode (Orchestrator.analyze_paper critic)
          (invokeNode (Orchestrator.extract_paper reader) s)))
  show (invokeNode (Orchestrator.generate_review meta) _).tool_calls = s.tool_calls + 4
  rw [invokeNode_tool_calls, ht₄, invokeNode_tool_calls, ht₃, invokeNode_tool_calls, ht₂,
    invokeNode_tool_calls, ht₁]

/-- Claim C2: for every run of the default four-stage pipeline, the final
result's `metadata` `tool_calls` counter equals exactly 4, and each node
function increments the counter exactly once on entry, regardless of the
outcome of any stage adapter. -/
theorem c2_tool_invocations_always_four
    (reader critic cite meta : Val → Except String Val)
    (session_id start_iso end_iso : String) (elapsed : Val)
    (paper_source source_type : String) :
    (runPipeline reader critic cite meta
        (initialState paper_source source_type session_id start_iso)).tool_calls = 4
    ∧ Except.bind ((review_paper (defaultInvoke reader critic cite meta) session_id
          start_iso end_iso elapsed paper_source source_type).index "metadata")
        (fun m => m.index "tool_calls") = .ok (Val.int 4)
    ∧ (∀ s : ReviewState,
        (Orchestrator.extract_paper reader s).tool_calls = s.tool_calls + 1
        ∧ (Orchestrator.analyze_paper critic s).tool_calls = s.tool_calls + 1
        ∧ (Orchestrator.find_citations cite s).tool_calls = s.tool_calls + 1
        ∧ (Orchestrator.generate_review meta s).tool_calls = s.tool_calls + 1) := by
  obtain ⟨t, _, ht⟩ := runPipeline_shape reader critic cite meta
    (initialState paper_source source_type session_id start_iso)
  have h4 : (runPipeline reader critic cite meta
      (initialState paper_source source_type session_id start_iso)).tool_calls = 4 := by
    rw [ht]
    simp [initialState]
  refine ⟨h4, ?_, fun s => ⟨(extract_paper_shape reader s).choose_spec.2,
    (analyze_paper_shape critic s).choose_spec.2,
    (find_citations_shape cite s).choose_spec.2,
    (generate_review_shape meta s).choose_spec.2⟩⟩
  show Except.bind ((review_paper (defaultInvoke reader critic cite meta) session_id
      start_iso end_iso elapsed paper_source source_type).index "metadata")
      (fun m => m.index "tool_calls") = .ok (Val.int 4)
  unfold review_paper defaultInvoke
  simp [Val.index, dictLookup, h4, Except.bind]

/-- Claim C7: within one run the `errors` list is append-only: each of
the four node functions, and hence the whole pipeline, only ever appends
to the list it received — existing entries are never removed or
reordered, so its length never decreases across stage transitions. -/
theorem c7_errors_append_only
    (reader critic cite meta : Val → Except String Val) (s : ReviewState) :
    (∃ t, (Orchestrator.extract_paper reader s).errors = s.errors ++ t)
    ∧ (∃ t, (Orchestrator.analyze_paper critic s).errors = s.errors ++ t)
    ∧ (∃ t, (Orchestrator.find_citations cite s).errors = s.errors ++ t)
    ∧ (∃ t, (Orchestrator.generate_review meta s).errors = s.errors ++ t)
    ∧ (∃ t, (runPipeline reader critic cite meta s).errors = s.errors ++ t) := by
  obtain ⟨t₁, he₁, _⟩ := extract_paper_shape reader s
  obtain ⟨t₂, he₂, _⟩ := analyze_paper_shape critic s
  obtain ⟨t₃, he₃, _⟩ := find_citations_shape cite s
  obtain ⟨t₄, he₄, _⟩ := generate_review_shape meta s
  obtain ⟨t₅, he₅, _⟩ := runPipeline_shape reader critic cite meta s
  exact ⟨⟨t₁, he₁⟩, ⟨t₂, he₂⟩, ⟨t₃, he₃⟩, ⟨t₄, he₄⟩, ⟨t₅, he₅⟩⟩

/-- Claim C4: when a hard stage (extraction, critique/analysis, or
synthesis) returns an error envelope, the coordinator appends that
stage's error description to the run's error list and does not abort:
all four stages are still entered (`tool_calls` grows by exactly 4) and
the final result's `metadata` block carries the accumulated error
list. -/
theorem c4_hard_stage_error_recorded
    (reader critic cite meta : Val → Except String Val) (s₀ : ReviewState)
    (e₁ e₂ e₃ : Val)
    (session_id start_iso end_iso paper_source source_type : String) (elapsed : Val) :
    (FailsWith reader (extractRequest s₀.paper_source s₀.source_type s₀.session_id) e₁ →
      ("Reader Agent error: " ++ pyStr e₁) ∈ (runPipeline reader critic cite meta s₀).errors)
    ∧ (FailsWith critic
        (analyzeRequest (Orchestrator.extract_paper reader s₀).session_id
          (Orchestrator.extract_paper reader s₀).paper_content) e₂ →
      ("Critic Agent error: " ++ pyStr e₂) ∈ (runPipeline reader critic cite meta s₀).errors)
    ∧ (FailsWith meta
        (metaRequest
          (Orchestrator.find_citations cite (Orchestrator.analyze_paper critic
            (Orchestrator.extract_paper reader s₀))).session_id
          (Orchestrator.find_citations cite (Orchestrator.analyze_paper critic
            (Orchestrator.extract_paper reader s₀))).paper_content
          (Orchestrator.find_citations cite (Orchestrator.analyze_paper critic
            (Orchestrator.extract_paper reader s₀))).critic_analysis
          (Orchestrator.find_citations cite (Orchestrator.analyze_paper critic
            (Orchestrator.extract_paper reader s₀))).citation_data) e₃ →
      ("MetaReviewer error: " ++ pyStr e₃) ∈ (runPipeline reader critic cite meta s₀).errors)
    ∧ (runPipeline reader critic cite meta s₀).tool_calls = s₀.tool_calls + 4
    ∧ Except.bind ((review_paper (defaultInvoke reader critic cite meta) session_id
          start_iso end_iso elapsed paper_source source_type).index "metadata")
        (fun m => m.index "errors")
        = .ok (Val.list ((runPipeline reader critic cite meta
            (initialState paper_source source_type session_id start_iso)).errors.map Val.str)) := by
  refine ⟨?_, ?_, ?_, (runPipeline_shape reader critic cite meta s₀).choose_spec.2, ?_⟩
  · intro h
    have hx := extract_paper_fails reader s₀ e₁ h
    unfold runPipeline
    simp [invokeNode_errors, hx, List.mem_append]
  · intro h
    have hx := analyze_paper_fails critic
      (invokeNode (Orchestrator.extract_paper reader) s₀) e₂ h
    unfold runPipeline
    simp [invokeNode_errors, hx, List.mem_append]
  · intro h
    have hS₁ : invokeNode (Orchestrator.extract_paper reader) s₀
        = { Orchestrator.extract_paper reader s₀ with
            errors := s₀.errors ++ (Orchestrator.extract_paper reader s₀).errors } := rfl
    obtain ⟨F₂, hc₂⟩ := analyze_paper_errors_congr critic
      (Orchestrator.extract_paper reader s₀)
      (s₀.errors ++ (Orchestrator.extract_paper reader s₀).errors)
    have hS₂ : invokeNode (Orchestrator.analyze_paper critic)
        (invokeNode (Orchestrator.extract_paper reader) s₀)
        = { Orchestrator.analyze_paper critic (Orchestrator.extract_paper reader s₀) with
            errors := (s₀.errors ++ (Orchestrator.extract_paper reader s₀).errors) ++ F₂ } := by
      rw [hS₁]
      unfold invokeNode applyReducers
      rw [hc₂]
    obtain ⟨F₃, hc₃⟩ := find_citations_errors_congr cite
      (Orchestrator.analyze_paper critic (Orchestrator.extract_paper reader s₀))
      ((s₀.errors ++ (Orchestrator.extract_paper reader s₀).errors) ++ F₂)
    have hS₃ : invokeNode (Orchestrator.find_citations cite)
        (invokeNode (Orchestrator.analyze_paper critic)
          (invokeNode (Orchestrator.extract_paper reader) s₀))
        = { Orchestrator.find_citations cite (Orchestrator.analyze_paper critic
              (Orchestrator.extract_paper reader s₀)) with
            errors := ((s₀.errors ++ (Orchestrator.extract_paper reader s₀).errors) ++ F₂)
              ++ F₃ } := by
      rw [hS₂]
      unfold invokeNode applyReducers
      rw [hc₃]
    have hx := generate_review_fails meta
      { Orchestrator.find_citations cite (Orchestrator.analyze_paper critic
          (Orchestrator.extract_paper reader s₀)) with
        errors := ((s₀.errors ++ (Orchestrator.extract_paper reader s₀).errors) ++ F₂)
          ++ F₃ } e₃ h
    unfold runPipeline
    rw [hS₃, invokeNode_errors, hx]
    simp [List.mem_append]
  · unfold review_paper defaultInvoke
    simp [Val.index, dictLookup, Except.bind]

/-- Claim C3: when the citation stage adapter returns an error envelope
or raises, the coordinator records the error, substitutes the empty dict
for the citation stage's output, and continues: with the other three
stages succeeding (with non-empty payloads), the final result still
carries their outputs, the empty citation output, and the citation
error in `metadata.errors`.  Under the `operator.add` reducer on
`errors` the synthesis node's full-state return re-appends the
already-recorded list, so the final list holds the citation error
twice. -/
theorem c3_citation_soft_failure
    (reader critic cite meta : Val → Except String Val)
    (paper_source source_type session_id start_iso end_iso : String) (elapsed : Val)
    (pc ca : List (String × Val)) (fr ev : Val) (f citeMsg raised : String)
    (hr : RespondsWith reader (extractRequest paper_source source_type session_id)
      (Val.dict pc))
    (hc : RespondsWith critic (analyzeRequest session_id (Val.dict pc)) (Val.dict ca))
    (hfmt : pyFormatFixed ((dictLookup ca "overall_score").getD (Val.int 0)) = .ok f)
    (hcite : (FailsWith cite (citeRequest session_id (Val.dict pc)) ev
        ∧ citeMsg = "CiteAgent error: " ++ pyStr ev)
      ∨ (cite (citeRequest session_id (Val.dict pc)) = .error raised
        ∧ citeMsg = "Citation analysis failed: " ++ raised))
    (hm : RespondsWith meta
      (metaRequest session_id (Val.dict pc) (Val.dict ca) (Val.dict [])) fr)
    (hpc : pc ≠ []) (hca : ca ≠ []) (hfr : fr ≠ Val.dict []) :
    (review_paper (defaultInvoke reader critic cite meta) session_id start_iso end_iso
        elapsed paper_source source_type).index "paper_content" = .ok (Val.dict pc)
    ∧ (review_paper (defaultInvoke reader critic cite meta) session_id start_iso end_iso
        elapsed paper_source source_type).index "critic_analysis" = .ok (Val.dict ca)
    ∧ (review_paper (defaultInvoke reader critic cite meta) session_id start_iso end_iso
        elapsed paper_source source_type).index "citation_data" = .ok (Val.dict [])
    ∧ (review_paper (defaultInvoke reader critic cite meta) session_id start_iso end_iso
        elapsed paper_source source_type).index "final_review" = .ok fr
    ∧ Except.bind ((review_paper (defaultInvoke reader critic cite meta) session_id
          start_iso end_iso elapsed paper_source source_type).index "metadata")
        (fun m => m.index "errors")
        = .ok (Val.list [Val.str citeMsg, Val.str citeMsg])
    ∧ (review_paper (defaultInvoke reader critic cite meta) session_id start_iso end_iso
        elapsed paper_source source_type).index "paper_content" ≠ .ok (Val.dict [])
    ∧ (review_paper (defaultInvoke reader critic cite meta) session_id start_iso end_iso
        elapsed paper_source source_type).index "critic_analysis" ≠ .ok (Val.dict [])
    ∧ (review_paper (defaultInvoke reader critic cite meta) session_id start_iso end_iso
        elapsed paper_source source_type).index "final_review" ≠ .ok (Val.dict []) := by
  have e1 : Orchestrator.extract_paper reader
      (initialState paper_source source_type session_id start_iso) =
      { paper_source := paper_source, source_type := source_type,
        session_id := session_id, paper_content := Val.dict pc,
        critic_analysis := Val.dict [], citation_data := Val.dict [],
        final_review := Val.dict [], errors := [],
        stage := "extraction", start_time := start_iso, tool_calls := 1 } :=
    extract_paper_responds reader
      (initialState paper_source source_type session_id start_iso) pc hr
  have hS1 : invokeNode (Orchestrator.extract_paper reader)
      (initialState paper_source source_type session_id start_iso) =
      { paper_source := paper_source, source_type := source_type,
        session_id := session_id, paper_content := Val.dict pc,
        critic_analysis := Val.dict [], citation_data := Val.dict [],
        final_review := Val.dict [], errors := [],
        stage := "extraction", start_time := start_iso, tool_calls := 1 } := by
    unfold invokeNode applyReducers
    rw [e1]
    rfl
  have e2 : Orchestrator.analyze_paper critic
      { paper_source := paper_source, source_type := source_type,
        session_id := session_id, paper_content := Val.dict pc,
        critic_analysis := Val.dict [], citation_data := Val.dict [],
        final_review := Val.dict [], errors := [],
        stage := "extraction", start_time := start_iso, tool_calls := 1 } =
      { paper_source := paper_source, source_type := source_type,
        session_id := session_id, paper_content := Val.dict pc,
        critic_analysis := Val.dict ca, citation_data := Val.dict [],
        final_review := Val.dict [], errors := [],
        stage := "analysis", start_time := start_iso, tool_calls := 2 } :=
    analyze_paper_responds critic
      { paper_source := paper_source, source_type := source_type,
        session_id := session_id, paper_content := Val.dict pc,
        critic_analysis := Val.dict [], citation_data := Val.dict [],
        final_review := Val.dict [], errors := [],
        stage := "extraction", start_time := start_iso, tool_calls := 1 } ca f hc hfmt
  have hS2 : invokeNode (Orchestrator.analyze_paper critic)
      (invokeNode (Orchestrator.extract_paper reader)
        (initialState paper_source source_type session_id start_iso)) =
      { paper_source := paper_source, source_type := source_type,
        session_id := session_id, paper_content := Val.dict pc,
        critic_analysis := Val.dict ca, citation_data := Val.dict [],
        final_review := Val.dict [], errors := [],
        stage := "analysis", start_time := start_iso, tool_calls := 2 } := by
    rw [hS1]
    unfold invokeNode applyReducers
    rw [e2]
    rfl
  have e3 : Orchestrator.find_citations cite
      { paper_source := paper_source, source_type := source_type,
        session_id := session_id, paper_content := Val.dict pc,
        critic_analysis := Val.dict ca, citation_data := Val.dict [],
        final_review := Val.dict [], errors := [],
        stage := "analysis", start_time := start_iso, tool_calls := 2 } =
      { paper_source := paper_source, source_type := source_type,
        session_id := session_id, paper_content := Val.dict pc,
        critic_analysis := Val.dict ca, citation_data := Val.dict [],
        final_review := Val.dict [], errors := [citeMsg],
        stage := "citation_analysis", start_time := start_iso, tool_calls := 3 } := by
    rcases hcite with ⟨hf, rfl⟩ | ⟨hraise, rfl⟩
    · exact find_citations_fails cite _ ev hf
    · exact find_citations_raises cite _ raised hraise
  have hS3 : invokeNode (Orchestrator.find_citations cite)
      (invokeNode (Orchestrator.analyze_paper critic)
        (invokeNode (Orchestrator.extract_paper reader)
          (initialState paper_source source_type session_id start_iso))) =
      { paper_source := paper_source, source_type := source_type,
        session_id := session_id, paper_content := Val.dict pc,
        critic_analysis := Val.dict ca, citation_data := Val.dict [],
        final_review := Val.dict [], errors := [citeMsg],
        stage := "citation_analysis", start_time := start_iso, tool_calls := 3 } := by
    rw [hS2]
    unfold invokeNode applyReducers
    rw [e3]
    rfl
  have e4 : Orchestrator.generate_review meta
      { paper_source := paper_source, source_type := source_type,
        session_id := session_id, paper_content := Val.dict pc,
        critic_analysis := Val.dict ca, citation_data := Val.dict [],
        final_review := Val.dict [], errors := [citeMsg],
        stage := "citation_analysis", start_time := start_iso, tool_calls := 3 } =
      { paper_source := paper_source, source_type := source_type,
        session_id := session_id, paper_content := Val.dict pc,
        critic_analysis := Val.dict ca, citation_data := Val.dict [],
        final_review := fr, errors := [citeMsg],
        stage := "review_generation", start_time := start_iso, tool_calls := 4 } :=
    generate_review_responds meta
      { paper_source := paper_source, source_type := source_type,
        session_id := session_id, paper_content := Val.dict pc,
        critic_analysis := Val.dict ca, citation_data := Val.dict [],
        final_review := Val.dict [], errors := [citeMsg],
        stage := "citation_analysis", start_time := start_iso, tool_calls := 3 } fr hm
  have efinal : runPipeline reader critic cite meta
      (initialState paper_source source_type session_id start_iso) =
      { paper_source := paper_source, source_type := source_type,
        session_id := session_id, paper_content := Val.dict pc,
        critic_analysis := Val.dict ca, citation_data := Val.dict [],
        final_review := fr, errors := [citeMsg, citeMsg],
        stage := "review_generation", start_time := start_iso, tool_calls := 4 } := by
    unfold runPipeline
    rw [hS3]
    unfold invokeNode applyReducers
    rw [e4]
    rfl
  refine ⟨?_, ?_, ?_, ?_, ?_, ?_, ?_, ?_⟩ <;>
    (simp only [review_paper, defaultInvoke, efinal]
     simp [Val.index, dictLookup, Except.bind, hpc, hca, hfr])

theorem c3_witness :
    (review_paper (defaultInvoke
        (respondAgent (Val.dict [("title", Val.str "X")]))
        (respondAgent (Val.dict [("overall_score", Val.int 7)]))
        (errorAgent (Val.str "arxiv down"))
        (respondAgent (Val.dict [("executive_summary", Val.str "S")])))
      "sid" "t0" "t1" (Val.int 0) "paperA" "pdf").index "citation_data"
      = .ok (Val.dict [])
    ∧ Except.bind ((review_paper (defaultInvoke
        (respondAgent (Val.dict [("title", Val.str "X")]))
        (respondAgent (Val.dict [("overall_score", Val.int 7)]))
        (errorAgent (Val.str "arxiv down"))
        (respondAgent (Val.dict [("executive_summary", Val.str "S")])))
      "sid" "t0" "t1" (Val.int 0) "paperA" "pdf").index "metadata")
        (fun m => m.index "errors")
      = .ok (Val.list [Val.str ("CiteAgent error: " ++ pyStr (Val.str "arxiv down")),
          Val.str ("CiteAgent error: " ++ pyStr (Val.str "arxiv down"))]) := by
  have h := c3_citation_soft_failure
    (respondAgent (Val.dict [("title", Val.str "X")]))
    (respondAgent (Val.dict [("overall_score", Val.int 7)]))
    (errorAgent (Val.str "arxiv down"))
    (respondAgent (Val.dict [("executive_summary", Val.str "S")]))
    "paperA" "pdf" "sid" "t0" "t1" (Val.int 0)
    [("title", Val.str "X")] [("overall_score", Val.int 7)]
    (Val.dict [("executive_summary", Val.str "S")]) (Val.str "arxiv down") "7.0"
    ("CiteAgent error: " ++ pyStr (Val.str "arxiv down")) "unused"
    ⟨_, _, rfl, rfl, rfl, rfl⟩ ⟨_, _, rfl, rfl, rfl, rfl⟩ rfl
    (Or.inl ⟨⟨_, _, _, rfl, rfl, rfl, rfl, rfl⟩, rfl⟩) ⟨_, _, rfl, rfl, rfl, rfl⟩
    (by simp) (by simp) (by simp)
  exact ⟨h.2.2.1, h.2.2.2.2.1⟩

theorem c4_witness :
    ("Reader Agent error: " ++ pyStr (Val.str "b1")) ∈
      (runPipeline (errorAgent (Val.str "b1")) (errorAgent (Val.str "b2"))
        (errorAgent (Val.str "b3")) (errorAgent (Val.str "b4"))
        (initialState "paperA" "pdf" "sid" "t0")).errors
    ∧ ("Critic Agent error: " ++ pyStr (Val.str "b2")) ∈
      (runPipeline (errorAgent (Val.str "b1")) (errorAgent (Val.str "b2"))
        (errorAgent (Val.str "b3")) (errorAgent (Val.str "b4"))
        (initialState "paperA" "pdf" "sid" "t0")).errors
    ∧ ("MetaReviewer error: " ++ pyStr (Val.str "b4")) ∈
      (runPipeline (errorAgent (Val.str "b1")) (errorAgent (Val.str "b2"))
        (errorAgent (Val.str "b3")) (errorAgent (Val.str "b4"))
        (initialState "paperA" "pdf" "sid" "t0")).errors
    ∧ (runPipeline (errorAgent (Val.str "b1")) (errorAgent (Val.str "b2"))
        (errorAgent (Val.str "b3")) (errorAgent (Val.str "b4"))
        (initialState "paperA" "pdf" "sid" "t0")).tool_calls =
      (initialState "paperA" "pdf" "sid" "t0").tool_calls + 4 := by
  have h := c4_hard_stage_error_recorded
    (errorAgent (Val.str "b1")) (errorAgent (Val.str "b2"))
    (errorAgent (Val.str "b3")) (errorAgent (Val.str "b4"))
    (initialState "paperA" "pdf" "sid" "t0")
    (Val.str "b1") (Val.str "b2") (Val.str "b4")
    "sid" "t0" "t1" "paperA" "pdf" (Val.int 0)
  exact ⟨h.1 ⟨_, _, _, rfl, rfl, rfl, rfl, rfl⟩,
    h.2.1 ⟨_, _, _, rfl, rfl, rfl, rfl, rfl⟩,
    h.2.2.1 ⟨_, _, _, rfl, rfl, rfl, rfl, rfl⟩,
    h.2.2.2.1⟩

/-- Claim C8 counterexample: when the workflow invocation raises a
coordinator-level exception, `review_paper` returns a result whose
`metadata` block has no `errors` list at all (orchestrator.py lines
318-325 build only `processing_time_seconds` and `failed`), contradicting
the claim that the metadata block always contains an `errors` list. -/
theorem c8_counterexample :
    Except.bind ((review_paper failingInvoke "sid" "t0" "t1" (Val.int 0) "paperA"
        "pdf").index "metadata") (fun m => m.index "errors")
      = .error "KeyError: errors"
    ∧ (review_paper failingInvoke "sid" "t0" "t1" (Val.int 0) "paperA" "pdf").index
        "error" = .ok (Val.str "boom") := by
  exact ⟨rfl, rfl⟩

/-- Claim C8 as amended: `review_paper` always returns a result; on
normal workflow completion the result's `metadata` block contains the
`errors` list (non-empty marking degraded output), but when the workflow
invocation raises a coordinator-level exception the returned result
instead carries a top-level `error` string and a `metadata` block with
`failed = True` and no `errors` list. -/
theorem c8_amended_metadata_errors
    (invoke : ReviewState → Except String ReviewState)
    (session_id start_iso end_iso paper_source source_type : String) (elapsed : Val) :
    (∀ fs, invoke (initialState paper_source source_type session_id start_iso) = .ok fs →
      Except.bind ((review_paper invoke session_id start_iso end_iso elapsed
          paper_source source_type).index "metadata") (fun m => m.index "errors")
        = .ok (Val.list (fs.errors.map Val.str)))
    ∧ (∀ e, invoke (initialState paper_source source_type session_id start_iso) = .error e →
      (review_paper invoke session_id start_iso end_iso elapsed paper_source
          source_type).index "error" = .ok (Val.str e)
      ∧ Except.bind ((review_paper invoke session_id start_iso end_iso elapsed
          paper_source source_type).index "metadata") (fun m => m.index "failed")
        = .ok (Val.bool true)
      ∧ Except.bind ((review_paper invoke session_id start_iso end_iso elapsed
          paper_source source_type).index "metadata") (fun m => m.index "errors")
        = .error "KeyError: errors") := by
  constructor
  · intro fs hfs
    simp only [review_paper]
    rw [hfs]
    simp [Val.index, dictLookup, Except.bind]
  · intro e he
    simp only [review_paper]
    rw [he]
    refine ⟨rfl, rfl, rfl⟩

theorem c8_witness :
    Except.bind ((review_paper (fun s => Except.ok s) "sid" "t0" "t1" (Val.int 0)
        "paperA" "pdf").index "metadata") (fun m => m.index "errors")
      = .ok (Val.list ((initialState "paperA" "pdf" "sid" "t0").errors.map Val.str))
    ∧ (review_paper failingInvoke "sid" "t0" "t1" (Val.int 0) "paperA" "pdf").index
        "error" = .ok (Val.str "boom")
    ∧ Except.bind ((review_paper failingInvoke "sid" "t0" "t1" (Val.int 0) "paperA"
        "pdf").index "metadata") (fun m => m.index "failed") = .ok (Val.bool true) := by
  have h1 := (c8_amended_metadata_errors (fun s => Except.ok s) "sid" "t0" "t1"
    "paperA" "pdf" (Val.int 0)).1 (initialState "paperA" "pdf" "sid" "t0") rfl
  have h2 := (c8_amended_metadata_errors failingInvoke "sid" "t0" "t1"
    "paperA" "pdf" (Val.int 0)).2 "boom" rfl
  exact ⟨h1, h2.1, h2.2.1⟩

/-- Claim C9: checkpoint save/load round-trip — loading a run identifier
after saving a state under it yields exactly that state, and a second
save under the same identifier overwrites the first. -/
theorem c9_checkpoint_roundtrip (store : CheckpointStore) (run_id : String)
    (state prior : ReviewState) :
    (CheckpointStore.save store run_id state).load run_id = some state
    ∧ (CheckpointStore.save (CheckpointStore.save store run_id prior) run_id
        state).load run_id = some state := by
  constructor <;> simp [CheckpointStore.save, CheckpointStore.load]

theorem pySlice_length_le (s : String) (n : Nat) : (pySlice s n).length ≤ n := by
  show (s.data.take n).length ≤ n
  exact List.length_take_le _ _

/-- Claim C10: the extraction stage's structured output is bounded for
every input text and any behaviour of the stdlib regex machinery:
at most 10 authors, at most 15 sections whose contents are each cut to
at most 1000 characters, and at most 50 references. -/
theorem c10_extraction_bounds
    (matchName : String → Bool) (splitAuthors : String → List String)
    (finditer : String → String → List (String × String))
    (matchNum matchNumDot : String → Bool)
    (search : String → Option String) (splitRefs : String → List String)
    (text : String) :
    (ReaderAgent.extract_authors matchName splitAuthors text).length ≤ 10
    ∧ (ReaderAgent.extract_sections finditer matchNum matchNumDot text).length ≤ 15
    ∧ ((ReaderAgent.extract_sections finditer matchNum matchNumDot text).all
        (fun sec => decide (sec.content.length ≤ 1000))) = true
    ∧ (ReaderAgent.extract_references search splitRefs text).length ≤ 50 := by
  refine ⟨?_, ?_, ?_, ?_⟩
  · unfold ReaderAgent.extract_authors
    exact List.length_take_le _ _
  · unfold ReaderAgent.extract_sections
    exact List.length_take_le _ _
  · rw [List.all_eq_true]
    intro sec hsec
    unfold ReaderAgent.extract_sections at hsec
    have hmem := List.mem_of_mem_take hsec
    rw [List.mem_flatMap] at hmem
    obtain ⟨pattern, _, hsec₂⟩ := hmem
    rw [List.mem_map] at hsec₂
    obtain ⟨m, _, rfl⟩ := hsec₂
    simpa using pySlice_length_le m.2.trim 1000
  · unfold ReaderAgent.extract_references
    rcases hs : search text with _ | r
    · exact Nat.zero_le _
    · exact List.length_take_le _ _

/-- Claim C6 counterexample: a message whose `payload` is not a mapping
makes `ReaderAgent.process_message` raise (`payload.get("action")` on a
non-dict, evaluated before the `try` block) instead of returning an
envelope — the exception propagates to the caller. -/
theorem c6_counterexample :
    ReaderAgent.process_message "m4" "t4" okLogic badPayloadMsg
      = .error "AttributeError: object has no attribute get" := rfl

/-- Claim C6 as amended: each adapter's `process_message` returns an
envelope (never raises) for every message that is a mapping whose
`payload` value is a mapping and whose `payload["data"]` value is a
mapping, for every behaviour of the stage-internal logic — internal
exceptions are converted to error envelopes by the `try`/`except`; but
the accesses performed before the `try` block propagate an exception
when the message, its payload, or its data field is not a mapping. -/
theorem c6_amended_no_raise_on_mapping_payload :
    (∀ (mid ts : String) (logic : Val → Val → Except String Val)
        (mkvs plkvs dkvs : List (String × Val)),
      (dictLookup mkvs "payload").getD (Val.dict []) = Val.dict plkvs →
      (dictLookup plkvs "data").getD (Val.dict []) = Val.dict dkvs →
      ∃ env, ReaderAgent.process_message mid ts logic (Val.dict mkvs) = .ok env)
    ∧ (∀ (mid ts : String) (logic : Val → Val → Except String Val)
        (mkvs plkvs dkvs : List (String × Val)),
      (dictLookup mkvs "payload").getD (Val.dict []) = Val.dict plkvs →
      (dictLookup plkvs "data").getD (Val.dict []) = Val.dict dkvs →
      ∃ env, CriticAgent.process_message mid ts logic (Val.dict mkvs) = .ok env)
    ∧ (∀ (mid ts : String) (logic : Val → Val → Except String Val)
        (mkvs plkvs dkvs : List (String × Val)),
      (dictLookup mkvs "payload").getD (Val.dict []) = Val.dict plkvs →
      (dictLookup plkvs "data").getD (Val.dict []) = Val.dict dkvs →
      ∃ env, CiteAgent.process_message mid ts logic (Val.dict mkvs) = .ok env)
    ∧ (∀ (mid ts : String) (logic : Val → Val → Val → Except String Val)
        (mkvs plkvs dkvs : List (String × Val)),
      (dictLookup mkvs "payload").getD (Val.dict []) = Val.dict plkvs →
      (dictLookup plkvs "data").getD (Val.dict []) = Val.dict dkvs →
      ∃ env, MetaReviewerAgent.process_message mid ts logic (Val.dict mkvs) = .ok env) := by
  refine ⟨?_, ?_, ?_, ?_⟩
  · intro mid ts logic mkvs plkvs dkvs hpl hdt
    unfold ReaderAgent.process_message
    simp only [Val.get, bind, Except.bind, hpl, hdt]
    by_cases ha : pyEqStr ((dictLookup plkvs "action").getD Val.none) "extract_paper" = true
    · simp only [if_pos ha]
      rcases logic ((dictLookup dkvs "source").getD Val.none)
        ((dictLookup dkvs "source_type").getD (Val.str "pdf")) with e | pcv
      · exact ⟨_, rfl⟩
      · exact ⟨_, rfl⟩
    · simp only [if_neg ha]
      exact ⟨_, rfl⟩
  · intro mid ts logic mkvs plkvs dkvs hpl hdt
    unfold CriticAgent.process_message
    simp only [Val.get, bind, Except.bind, hpl, hdt]
    by_cases ha : pyEqStr ((dictLookup plkvs "action").getD Val.none) "analyze_paper" = true
    · simp only [if_pos ha]
      rcases logic ((dictLookup dkvs "paper_content").getD (Val.dict []))
        ((dictLookup dkvs "focus_areas").getD Val.none) with e | av
      · exact ⟨_, rfl⟩
      · exact ⟨_, rfl⟩
    · simp only [if_neg ha]
      exact ⟨_, rfl⟩
  · intro mid ts logic mkvs plkvs dkvs hpl hdt
    unfold CiteAgent.process_message
    simp only [Val.get, bind, Except.bind, hpl, hdt]
    by_cases ha : pyEqStr ((dictLookup plkvs "action").getD Val.none) "analyze_citations" = true
    · simp only [if_pos ha]
      rcases logic ((dictLookup dkvs "paper_content").getD (Val.dict []))
        ((dictLookup dkvs "max_related").getD (Val.int 10)) with e | av
      · exact ⟨_, rfl⟩
      · exact ⟨_, rfl⟩
    · simp only [if_neg ha]
      exact ⟨_, rfl⟩
  · intro mid ts logic mkvs plkvs dkvs hpl hdt
    unfold MetaReviewerAgent.process_message
    simp only [Val.get, bind, Except.bind, hpl, hdt]
    by_cases ha : pyEqStr ((dictLookup plkvs "action").getD Val.none) "generate_review" = true
    · simp only [if_pos ha]
      rcases logic ((dictLookup dkvs "paper_content").getD (Val.dict []))
        ((dictLookup dkvs "critic_analysis").getD (Val.dict []))
        ((dictLookup dkvs "citation_data").getD Val.none) with e | rvv
      · exact ⟨_, rfl⟩
      · exact ⟨_, rfl⟩
    · simp only [if_neg ha]
      exact ⟨_, rfl⟩

theorem c6_witness :
    (∃ env, ReaderAgent.process_message "m5" "t5" (fun _ _ => Except.error "pdf broken")
      unknownActionMsg = .ok env)
    ∧ (∃ env, CriticAgent.process_message "m5" "t5" okLogic
        (Val.dict [ ("message_type", Val.str "request")
                  , ("payload", Val.dict [("action", Val.str "analyze_paper")
                  , ("data", Val.dict [])]) ]) = .ok env) := by
  constructor
  · exact c6_amended_no_raise_on_mapping_payload.1 "m5" "t5"
      (fun _ _ => Except.error "pdf broken")
      [ ("message_id", Val.str "m1")
      , ("sender", Val.str "orchestrator")
      , ("message_type", Val.str "request")
      , ("payload", Val.dict [("action", Val.str "bogus"), ("data", Val.dict [])])
      , ("context", Val.dict [("session_id", Val.str "s1")]) ]
      [("action", Val.str "bogus"), ("data", Val.dict [])] [] rfl rfl
  · exact c6_amended_no_raise_on_mapping_payload.2.1 "m5" "t5" okLogic
      [ ("message_type", Val.str "request")
      , ("payload", Val.dict [("action", Val.str "analyze_paper"), ("data", Val.dict [])]) ]
      [("action", Val.str "analyze_paper"), ("data", Val.dict [])] [] rfl rfl

/-- Claim C5 counterexample: an envelope whose `message_type` is
`"response"` — not a request — but whose action matches is processed
normally by `ReaderAgent.process_message`, which returns a response
envelope rather than the error envelope the claim requires. -/
theorem c5_counterexample :
    ReaderAgent.process_message "m3" "t3" okLogic wrongTypeMsg
      = .ok (agentResponse "m3" "t3" "ReaderAgent" (Val.str "orchestrator")
        "extract_paper" (Val.dict []) (Val.dict [("session_id", Val.str "s1")]))
    ∧ wrongTypeMsg.index "message_type" = .ok (Val.str "response")
    ∧ (agentResponse "m3" "t3" "ReaderAgent" (Val.str "orchestrator") "extract_paper"
        (Val.dict []) (Val.dict [("session_id", Val.str "s1")])).index "message_type"
      = .ok (Val.str "response") :=
  ⟨rfl, rfl, rfl⟩

theorem val_get_msgtype_cons (mtv : Val) (kvs : List (String × Val)) (k : String)
    (d : Val) (h : "message_type" ≠ k) :
    (Val.dict (("message_type", mtv) :: kvs)).get k d = (Val.dict kvs).get k d := by
  simp [Val.get, dictLookup, h]

/-- Claim C5 as amended: each adapter validates only the action — an
envelope whose action does not match its declared action gets back the
bare unknown-action error envelope — while `message_type` is never
inspected: the result of `process_message` is unchanged under any
replacement of the envelope's `message_type` value, so a non-request
envelope with a matching action is processed as if it were a request. -/
theorem c5_amended_action_only_validation :
    (∀ (mid ts : String) (logic : Val → Val → Except String Val)
        (mkvs plkvs : List (String × Val)) (act : Val),
      (dictLookup mkvs "payload").getD (Val.dict []) = Val.dict plkvs →
      (dictLookup plkvs "action").getD Val.none = act →
      pyEqStr act "extract_paper" = false →
      ReaderAgent.process_message mid ts logic (Val.dict mkvs)
        = .ok (unknownActionError act))
    ∧ (∀ (mid ts : String) (logic : Val → Val → Except String Val)
        (mkvs plkvs : List (String × Val)) (act : Val),
      (dictLookup mkvs "payload").getD (Val.dict []) = Val.dict plkvs →
      (dictLookup plkvs "action").getD Val.none = act →
      pyEqStr act "analyze_paper" = false →
      CriticAgent.process_message mid ts logic (Val.dict mkvs)
        = .ok (unknownActionError act))
    ∧ (∀ (mid ts : String) (logic : Val → Val → Except String Val)
        (mkvs plkvs : List (String × Val)) (act : Val),
      (dictLookup mkvs "payload").getD (Val.dict []) = Val.dict plkvs →
      (dictLookup plkvs "action").getD Val.none = act →
      pyEqStr act "analyze_citations" = false →
      CiteAgent.process_message mid ts logic (Val.dict mkvs)
        = .ok (unknownActionError act))
    ∧ (∀ (mid ts : String) (logic : Val → Val → Val → Except String Val)
        (mkvs plkvs : List (String × Val)) (act : Val),
      (dictLookup mkvs "payload").getD (Val.dict []) = Val.dict plkvs →
      (dictLookup plkvs "action").getD Val.none = act →
      pyEqStr act "generate_review" = false →
      MetaReviewerAgent.process_message mid ts logic (Val.dict mkvs)
        = .ok (unknownActionError act))
    ∧ (∀ (mid ts : String) (logic : Val → Val → Except String Val)
        (kvs : List (String × Val)) (mt₁ mt₂ : Val),
      ReaderAgent.process_message mid ts logic (Val.dict (("message_type", mt₁) :: kvs))
        = ReaderAgent.process_message mid ts logic (Val.dict (("message_type", mt₂) :: kvs)))
    ∧ (∀ (mid ts : String) (logic : Val → Val → Except String Val)
        (kvs : List (String × Val)) (mt₁ mt₂ : Val),
      CriticAgent.process_message mid ts logic (Val.dict (("message_type", mt₁) :: kvs))
        = CriticAgent.process_message mid ts logic (Val.dict (("message_type", mt₂) :: kvs)))
    ∧ (∀ (mid ts : String) (logic : Val → Val → Except String Val)
        (kvs : List (String × Val)) (mt₁ mt₂ : Val),
      CiteAgent.process_message mid ts logic (Val.dict (("message_type", mt₁) :: kvs))
        = CiteAgent.process_message mid ts logic (Val.dict (("message_type", mt₂) :: kvs)))
    ∧ (∀ (mid ts : String) (logic : Val → Val → Val → Except String Val)
        (kvs : List (String × Val)) (mt₁ mt₂ : Val),
      MetaReviewerAgent.process_message mid ts logic
          (Val.dict (("message_type", mt₁) :: kvs))
        = MetaReviewerAgent.process_message mid ts logic
          (Val.dict (("message_type", mt₂) :: kvs))) := by
  refine ⟨?_, ?_, ?_, ?_, ?_, ?_, ?_, ?_⟩
  · intro mid ts logic mkvs plkvs act hpl hact hne
    unfold ReaderAgent.process_message
    simp only [Val.get, bind, Except.bind, hpl, hact, hne, Bool.false_eq_true, if_false]
  · intro mid ts logic mkvs plkvs act hpl hact hne
    unfold CriticAgent.process_message
    simp only [Val.get, bind, Except.bind, hpl, hact, hne, Bool.false_eq_true, if_false]
  · intro mid ts logic mkvs plkvs act hpl hact hne
    unfold CiteAgent.process_message
    simp only [Val.get, bind, Except.bind, hpl, hact, hne, Bool.false_eq_true, if_false]
  · intro mid ts logic mkvs plkvs act hpl hact hne
    unfold MetaReviewerAgent.process_message
    simp only [Val.get, bind, Except.bind, hpl, hact, hne, Bool.false_eq_true, if_false]
  · intro mid ts logic kvs mt₁ mt₂
    unfold ReaderAgent.process_message
    simp only [val_get_msgtype_cons mt₁ kvs "payload" (Val.dict []) (by decide),
      val_get_msgtype_cons mt₂ kvs "payload" (Val.dict []) (by decide),
      val_get_msgtype_cons mt₁ kvs "sender" Val.none (by decide),
      val_get_msgtype_cons mt₂ kvs "sender" Val.none (by decide),
      val_get_msgtype_cons mt₁ kvs "context" (Val.dict []) (by decide),
      val_get_msgtype_cons mt₂ kvs "context" (Val.dict []) (by decide)]
  · intro mid ts logic kvs mt₁ mt₂
    unfold CriticAgent.process_message
    simp only [val_get_msgtype_cons mt₁ kvs "payload" (Val.dict []) (by decide),
      val_get_msgtype_cons mt₂ kvs "payload" (Val.dict []) (by decide),
      val_get_msgtype_cons mt₁ kvs "sender" Val.none (by decide),
      val_get_msgtype_cons mt₂ kvs "sender" Val.none (by decide),
      val_get_msgtype_cons mt₁ kvs "context" (Val.dict []) (by decide),
      val_get_msgtype_cons mt₂ kvs "context" (Val.dict []) (by decide)]
  · intro mid ts logic kvs mt₁ mt₂
    unfold CiteAgent.process_message
    simp only [val_get_msgtype_cons mt₁ kvs "payload" (Val.dict []) (by decide),
      val_get_msgtype_cons mt₂ kvs "payload" (Val.dict []) (by decide),
      val_get_msgtype_cons mt₁ kvs "sender" Val.none (by decide),
      val_get_msgtype_cons mt₂ kvs "sender" Val.none (by decide),
      val_get_msgtype_cons mt₁ kvs "context" (Val.dict []) (by decide),
      val_get_msgtype_cons mt₂ kvs "context" (Val.dict []) (by decide)]
  · intro mid ts logic kvs mt₁ mt₂
    unfold MetaReviewerAgent.process_message
    simp only [val_get_msgtype_cons mt₁ kvs "payload" (Val.dict []) (by decide),
      val_get_msgtype_cons mt₂ kvs "payload" (Val.dict []) (by decide),
      val_get_msgtype_cons mt₁ kvs "sender" Val.none (by decide),
      val_get_msgtype_cons mt₂ kvs "sender" Val.none (by decide),
      val_get_msgtype_cons mt₁ kvs "context" (Val.dict []) (by decide),
      val_get_msgtype_cons mt₂ kvs "context" (Val.dict []) (by decide)]

theorem c5_witness :
    ReaderAgent.process_message "m6" "t6" okLogic unknownActionMsg
      = .ok (unknownActionError (Val.str "bogus"))
    ∧ ReaderAgent.process_message "m6" "t6" okLogic
        (Val.dict (("message_type", Val.str "response") ::
          [("payload", Val.dict [("action", Val.str "extract_paper"),
            ("data", Val.dict [])])]))
      = ReaderAgent.process_message "m6" "t6" okLogic
        (Val.dict (("message_type", Val.str "request") ::
          [("payload", Val.dict [("action", Val.str "extract_paper"),
            ("data", Val.dict [])])])) := by
  constructor
  · exact c5_amended_action_only_validation.1 "m6" "t6" okLogic
      [ ("message_id", Val.str "m1")
      , ("sender", Val.str "orchestrator")
      , ("message_type", Val.str "request")
      , ("payload", Val.dict [("action", Val.str "bogus"), ("data", Val.dict [])])
      , ("context", Val.dict [("session_id", Val.str "s1")]) ]
      [("action", Val.str "bogus"), ("data", Val.dict [])] (Val.str "bogus")
      rfl rfl rfl
  · exact c5_amended_action_only_validation.2.2.2.2.1 "m6" "t6" okLogic
      [("payload", Val.dict [("action", Val.str "extract_paper"), ("data", Val.dict [])])]
      (Val.str "response") (Val.str "request")


theorem create_response_preserves (mid ts sender : String) (data : Val)
    (okvs plkvs : List (String × Val)) (env : Val)
    (hpl : (dictLookup okvs "payload").getD (Val.dict []) = Val.dict plkvs)
    (hres : MCPMessage.create_response mid ts (Val.dict okvs) sender data = .ok env) :
    env.index "context" = .ok ((dictLookup okvs "context").getD (Val.dict []))
    ∧ Except.bind (env.index "payload") (fun p => p.index "action")
      = .ok ((dictLookup plkvs "action").getD Val.none) := by
  unfold MCPMessage.create_response at hres
  simp only [Val.get, bind, Except.bind, hpl, Except.ok.injEq] at hres
  subst hres
  constructor <;> simp [Val.index, dictLookup, Except.bind]

theorem create_error_preserves (mid ts sender err : String)
    (okvs plkvs : List (String × Val)) (env : Val)
    (hpl : (dictLookup okvs "payload").getD (Val.dict []) = Val.dict plkvs)
    (hres : MCPMessage.create_error mid ts (Val.dict okvs) sender err = .ok env) :
    env.index "context" = .ok ((dictLookup okvs "context").getD (Val.dict []))
    ∧ Except.bind (env.index "payload") (fun p => p.index "action")
      = .ok ((dictLookup plkvs "action").getD Val.none) := by
  unfold MCPMessage.create_error at hres
  simp only [Val.get, bind, Except.bind, hpl, Except.ok.injEq] at hres
  subst hres
  constructor <;> simp [Val.index, dictLookup, Except.bind]

theorem reader_pm_preserves (mid ts : String) (logic : Val → Val → Except String Val)
    (mkvs plkvs : List (String × Val)) (env : Val)
    (hpl : (dictLookup mkvs "payload").getD (Val.dict []) = Val.dict plkvs)
    (hact : (dictLookup plkvs "action").getD Val.none = Val.str "extract_paper")
    (hres : ReaderAgent.process_message mid ts logic (Val.dict mkvs) = .ok env) :
    env.index "context" = .ok ((dictLookup mkvs "context").getD (Val.dict []))
    ∧ Except.bind (env.index "payload") (fun p => p.index "action")
      = .ok (Val.str "extract_paper") := by
  unfold ReaderAgent.process_message at hres
  simp only [Val.get, bind, Except.bind, hpl, hact, pyEqStr] at hres
  rcases hd : (dictLookup plkvs "data").getD (Val.dict []) with s | n | b | _ | vs | dkvs
  case _ => rw [hd] at hres; simp [Val.get] at hres
  case _ => rw [hd] at hres; simp [Val.get] at hres
  case _ => rw [hd] at hres; simp [Val.get] at hres
  case _ => rw [hd] at hres; simp [Val.get] at hres
  case _ => rw [hd] at hres; simp [Val.get] at hres
  rw [hd] at hres
  simp only [Val.get, bind, Except.bind, decide_True] at hres
  simp only [if_true] at hres
  rcases hl : logic ((dictLookup dkvs "source").getD Val.none)
      ((dictLookup dkvs "source_type").getD (Val.str "pdf")) with e | pcv <;>
    rw [hl] at hres <;>
    simp only [Except.ok.injEq] at hres <;>
    subst hres <;>
    constructor <;>
    simp [agentResponse, agentError, Val.index, dictLookup, Except.bind, hact]

theorem critic_pm_preserves (mid ts : String) (logic : Val → Val → Except String Val)
    (mkvs plkvs : List (String × Val)) (env : Val)
    (hpl : (dictLookup mkvs "payload").getD (Val.dict []) = Val.dict plkvs)
    (hact : (dictLookup plkvs "action").getD Val.none = Val.str "analyze_paper")
    (hres : CriticAgent.process_message mid ts logic (Val.dict mkvs) = .ok env) :
    env.index "context" = .ok ((dictLookup mkvs "context").getD (Val.dict []))
    ∧ Except.bind (env.index "payload") (fun p => p.index "action")
      = .ok (Val.str "analyze_paper") := by
  unfold CriticAgent.process_message at hres
  simp only [Val.get, bind, Except.bind, hpl, hact, pyEqStr] at hres
  rcases hd : (dictLookup plkvs "data").getD (Val.dict []) with s | n | b | _ | vs | dkvs
  case _ => rw [hd] at hres; simp [Val.get] at hres
  case _ => rw [hd] at hres; simp [Val.get] at hres
  case _ => rw [hd] at hres; simp [Val.get] at hres
  case _ => rw [hd] at hres; simp [Val.get] at hres
  case _ => rw [hd] at hres; simp [Val.get] at hres
  rw [hd] at hres
  simp only [Val.get, bind, Except.bind, decide_True] at hres
  simp only [if_true] at hres
  rcases hl : logic ((dictLookup dkvs "paper_content").getD (Val.dict []))
      ((dictLookup dkvs "focus_areas").getD Val.none) with e | av <;>
    rw [hl] at hres <;>
    simp only [Except.ok.injEq] at hres <;>
    subst hres <;>
    constructor <;>
    simp [agentResponse, agentError, Val.index, dictLookup, Except.bind, hact]

theorem cite_pm_preserves (mid ts : String) (logic : Val → Val → Except String Val)
    (mkvs plkvs : List (String × Val)) (env : Val)
    (hpl : (dictLookup mkvs "payload").getD (Val.dict []) = Val.dict plkvs)
    (hact : (dictLookup plkvs "action").getD Val.none = Val.str "analyze_citations")
    (hres : CiteAgent.process_message mid ts logic (Val.dict mkvs) = .ok env) :
    env.index "context" = .ok ((dictLookup mkvs "context").getD (Val.dict []))
    ∧ Except.bind (env.index "payload") (fun p => p.index "action")
      = .ok (Val.str "analyze_citations") := by
  unfold CiteAgent.process_message at hres
  simp only [Val.get, bind, Except.bind, hpl, hact, pyEqStr] at hres
  rcases hd : (dictLookup plkvs "data").getD (Val.dict []) with s | n | b | _ | vs | dkvs
  case _ => rw [hd] at hres; simp [Val.get] at hres
  case _ => rw [hd] at hres; simp [Val.get] at hres
  case _ => rw [hd] at hres; simp [Val.get] at hres
  case _ => rw [hd] at hres; simp [Val.get] at hres
  case _ => rw [hd] at hres; simp [Val.get] at hres
  rw [hd] at hres
  simp only [Val.get, bind, Except.bind, decide_True] at hres
  simp only [if_true] at hres
  rcases hl : logic ((dictLookup dkvs "paper_content").getD (Val.dict []))
      ((dictLookup dkvs "max_related").getD (Val.int 10)) with e | av <;>
    rw [hl] at hres <;>
    simp only [Except.ok.injEq] at hres <;>
    subst hres <;>
    constructor <;>
    simp [agentResponse, agentError, Val.index, dictLookup, Except.bind, hact]

theorem meta_pm_preserves (mid ts : String) (logic : Val → Val → Val → Except String Val)
    (mkvs plkvs : List (String × Val)) (env : Val)
    (hpl : (dictLookup mkvs "payload").getD (Val.dict []) = Val.dict plkvs)
    (hact : (dictLookup plkvs "action").getD Val.none = Val.str "generate_review")
    (hres : MetaReviewerAgent.process_message mid ts logic (Val.dict mkvs) = .ok env) :
    env.index "context" = .ok ((dictLookup mkvs "context").getD (Val.dict []))
    ∧ Except.bind (env.index "payload") (fun p => p.index "action")
      = .ok (Val.str "generate_review") := by
  unfold MetaReviewerAgent.process_message at hres
  simp only [Val.get, bind, Except.bind, hpl, hact, pyEqStr] at hres
  rcases hd : (dictLookup plkvs "data").getD (Val.dict []) with s | n | b | _ | vs | dkvs
  case _ => rw [hd] at hres; simp [Val.get] at hres
  case _ => rw [hd] at hres; simp [Val.get] at hres
  case _ => rw [hd] at hres; simp [Val.get] at hres
  case _ => rw [hd] at hres; simp [Val.get] at hres
  case _ => rw [hd] at hres; simp [Val.get] at hres
  rw [hd] at hres
  simp only [Val.get, bind, Except.bind, decide_True] at hres
  simp only [if_true] at hres
  rcases hl : logic ((dictLookup dkvs "paper_content").getD (Val.dict []))
      ((dictLookup dkvs "critic_analysis").getD (Val.dict []))
      ((dictLookup dkvs "citation_data").getD Val.none) with e | rvv <;>
    rw [hl] at hres <;>
    simp only [Except.ok.injEq] at hres <;>
    subst hres <;>
    constructor <;>
    simp [agentResponse, agentError, Val.index, dictLookup, Except.bind, hact]

/-- Claim C1 counterexample: the error envelope the reader adapter
returns for an unrecognised action (reader_agent.py lines 555-558)
carries no `context` key at all and no `action` in its payload, even
though the originating request carried both — context/action
preservation fails on exactly the unknown-action error path the claim
includes. -/
theorem c1_counterexample :
    ReaderAgent.process_message "m7" "t7" okLogic unknownActionMsg
      = .ok (unknownActionError (Val.str "bogus"))
    ∧ unknownActionMsg.index "context" = .ok (Val.dict [("session_id", Val.str "s1")])
    ∧ (unknownActionError (Val.str "bogus")).index "context"
      = .error "KeyError: context"
    ∧ Except.bind ((unknownActionError (Val.str "bogus")).index "payload")
        (fun p => p.index "action") = .error "KeyError: action" :=
  ⟨rfl, rfl, rfl, rfl⟩

/-- Claim C1 as amended: the envelope factories `create_response` and
`create_error` copy `context` and `action` from the originating request,
and every adapter's matched-action paths (the response path and the
exception-converted error path) return envelopes whose `context` equals
the request's `context` and whose payload `action` equals the request's
action; only the unknown-action error envelope carries neither. -/
theorem c1_amended_context_action_preserved :
    (∀ (mid ts sender : String) (data : Val) (okvs plkvs : List (String × Val)) (env : Val),
      (dictLookup okvs "payload").getD (Val.dict []) = Val.dict plkvs →
      MCPMessage.create_response mid ts (Val.dict okvs) sender data = .ok env →
      env.index "context" = .ok ((dictLookup okvs "context").getD (Val.dict []))
      ∧ Except.bind (env.index "payload") (fun p => p.index "action")
        = .ok ((dictLookup plkvs "action").getD Val.none))
    ∧ (∀ (mid ts sender err : String) (okvs plkvs : List (String × Val)) (env : Val),
      (dictLookup okvs "payload").getD (Val.dict []) = Val.dict plkvs →
      MCPMessage.create_error mid ts (Val.dict okvs) sender err = .ok env →
      env.index "context" = .ok ((dictLookup okvs "context").getD (Val.dict []))
      ∧ Except.bind (env.index "payload") (fun p => p.index "action")
        = .ok ((dictLookup plkvs "action").getD Val.none))
    ∧ (∀ (mid ts : String) (logic : Val → Val → Except String Val)
        (mkvs plkvs : List (String × Val)) (env : Val),
      (dictLookup mkvs "payload").getD (Val.dict []) = Val.dict plkvs →
      (dictLookup plkvs "action").getD Val.none = Val.str "extract_paper" →
      ReaderAgent.process_message mid ts logic (Val.dict mkvs) = .ok env →
      env.index "context" = .ok ((dictLookup mkvs "context").getD (Val.dict []))
      ∧ Except.bind (env.index "payload") (fun p => p.index "action")
        = .ok (Val.str "extract_paper"))
    ∧ (∀ (mid ts : String) (logic : Val → Val → Except String Val)
        (mkvs plkvs : List (String × Val)) (env : Val),
      (dictLookup mkvs "payload").getD (Val.dict []) = Val.dict plkvs →
      (dictLookup plkvs "action").getD Val.none = Val.str "analyze_paper" →
      CriticAgent.process_message mid ts logic (Val.dict mkvs) = .ok env →
      env.index "context" = .ok ((dictLookup mkvs "context").getD (Val.dict []))
      ∧ Except.bind (env.index "payload") (fun p => p.index "action")
        = .ok (Val.str "analyze_paper"))
    ∧ (∀ (mid ts : String) (logic : Val → Val → Except String Val)
        (mkvs plkvs : List (String × Val)) (env : Val),
      (dictLookup mkvs "payload").getD (Val.dict []) = Val.dict plkvs →
      (dictLookup plkvs "action").getD Val.none = Val.str "analyze_citations" →
      CiteAgent.process_message mid ts logic (Val.dict mkvs) = .ok env →
      env.index "context" = .ok ((dictLookup mkvs "context").getD (Val.dict []))
      ∧ Except.bind (env.index "payload") (fun p => p.index "action")
        = .ok (Val.str "analyze_citations"))
    ∧ (∀ (mid ts : String) (logic : Val → Val → Val → Except String Val)
        (mkvs plkvs : List (String × Val)) (env : Val),
      (dictLookup mkvs "payload").getD (Val.dict []) = Val.dict plkvs →
      (dictLookup plkvs "action").getD Val.none = Val.str "generate_review" →
      MetaReviewerAgent.process_message mid ts logic (Val.dict mkvs) = .ok env →
      env.index "context" = .ok ((dictLookup mkvs "context").getD (Val.dict []))
      ∧ Except.bind (env.index "payload") (fun p => p.index "action")
        = .ok (Val.str "generate_review")) :=
  ⟨fun mid ts sender data okvs plkvs env hpl hres =>
      create_response_preserves mid ts sender data okvs plkvs env hpl hres,
   fun mid ts sender err okvs plkvs env hpl hres =>
      create_error_preserves mid ts sender err okvs plkvs env hpl hres,
   fun mid ts logic mkvs plkvs env hpl hact hres =>
      reader_pm_preserves mid ts logic mkvs plkvs env hpl hact hres,
   fun mid ts logic mkvs plkvs env hpl hact hres =>
      critic_pm_preserves mid ts logic mkvs plkvs env hpl hact hres,
   fun mid ts logic mkvs plkvs env hpl hact hres =>
      cite_pm_preserves mid ts logic mkvs plkvs env hpl hact hres,
   fun mid ts logic mkvs plkvs env hpl hact hres =>
      meta_pm_preserves mid ts logic mkvs plkvs env hpl hact hres⟩

theorem c1_witness :
    ((Val.dict
        [ ("message_id", Val.str "m8")
        , ("sender", Val.str "ReaderAgent")
        , ("receiver", Val.str "orchestrator")
        , ("timestamp", Val.str "t8")
        , ("message_type", Val.str "response")
        , ("payload", Val.dict [("action", Val.str "extract_paper"), ("data", Val.dict [])])
        , ("context", Val.dict [("session_id", Val.str "s1")]) ]).index "context"
      = .ok ((dictLookup
          [ ("message_id", Val.str "m1")
          , ("sender", Val.str "orchestrator")
          , ("message_type", Val.str "request")
          , ("payload", Val.dict [("action", Val.str "extract_paper"), ("data", Val.dict [])])
          , ("context", Val.dict [("session_id", Val.str "s1")]) ] "context").getD
          (Val.dict []))) := by
  have h := c1_amended_context_action_preserved.2.2.1 "m8" "t8" okLogic
    [ ("message_id", Val.str "m1")
    , ("sender", Val.str "orchestrator")
    , ("message_type", Val.str "request")
    , ("payload", Val.dict [("action", Val.str "extract_paper"), ("data", Val.dict [])])
    , ("context", Val.dict [("session_id", Val.str "s1")]) ]
    [("action", Val.str "extract_paper"), ("data", Val.dict [])]
    (agentResponse "m8" "t8" "ReaderAgent" (Val.str "orchestrator") "extract_paper"
      (Val.dict []) (Val.dict [("session_id", Val.str "s1")]))
    rfl rfl rfl
  exact h.1
